import Mathlib

set_option maxRecDepth 8000
set_option linter.unusedVariables false

/-!
Shallow embedding of the query-translation and field-mapping core of the
mcp-ado-py repository: `src/mcp_ado/utils/query_converter.py` (class
`QueryConverter`) and `src/mcp_ado/utils/field_mapper.py` (class
`FieldMapper`).  Python strings are Lean `String`s, Python dicts are
association lists in insertion order, Python `re` patterns are values of a
small regex AST evaluated by a backtracking matcher with Python semantics
(leftmost search position, greedy quantifiers, left-preferring
alternation).  The wall clock (`datetime.now()`) is an explicit `now : Nat`
parameter counted in days, and `strftime` rendering of a day count is its
decimal numeral: the claims depend only on which day offset is chosen,
never on the calendar rendering.
-/

/-- Python whitespace class over the characters the repository's queries use
(the ASCII part of `\s` and of `str.strip`). -/
def pyIsSpace (c : Char) : Bool :=
  c = ' ' || c = '\t' || c = '\n' || c = '\r' || c = '\x0b' || c = '\x0c'

/-- Python `\w` word-character class (ASCII fragment). -/
def pyIsWord (c : Char) : Bool :=
  c.isAlpha || c.isDigit || c = '_'

/-- ASCII lower-casing of one character, as Python `str.lower` acts on the
ASCII inputs this core receives. -/
def pyLowerChar (c : Char) : Char :=
  if 'A' ≤ c && c ≤ 'Z' then Char.ofNat (c.toNat + 32) else c

/-- Python `str.lower` (ASCII fragment). -/
def pyLower (s : String) : String :=
  ⟨s.data.map pyLowerChar⟩

/-- Python `str.strip()`: drop whitespace from both ends. -/
def pyStrip (s : String) : String :=
  ⟨((s.data.dropWhile pyIsSpace).reverse.dropWhile pyIsSpace).reverse⟩

/-- Substring occurrence on character lists (Python's `needle in haystack`). -/
def infixOfL (pat : List Char) : List Char → Bool
  | [] => pat.isEmpty
  | c :: rest => pat.isPrefixOf (c :: rest) || infixOfL pat rest

/-- Python's `needle in haystack` substring test on strings. -/
def pyIn (pat s : String) : Bool :=
  infixOfL pat.data s.data

/-- Python `str.replace(old, new)` on character lists: replace every
non-overlapping occurrence left to right.  The fuel is the input length;
every step consumes at least one character when `pat` is nonempty. -/
def pyReplaceL (pat rep : List Char) : Nat → List Char → List Char
  | 0, s => s
  | _ + 1, [] => []
  | fuel + 1, c :: rest =>
    if !pat.isEmpty && pat.isPrefixOf (c :: rest) then
      rep ++ pyReplaceL pat rep fuel (List.drop pat.length (c :: rest))
    else
      c :: pyReplaceL pat rep fuel rest

/-- Python `s.replace(pat, rep)` on strings. -/
def pyReplace (s pat rep : String) : String :=
  ⟨pyReplaceL pat.data rep.data (s.data.length + 1) s.data⟩

/-- Decimal digits to a natural number (Python `int` on a digit string). -/
def digitsToNat (l : List Char) : Nat :=
  l.foldl (fun n c => n * 10 + (c.toNat - 48)) 0

/-- Python `sep.join(parts)`. -/
def pyJoin (sep : String) : List String → String
  | [] => ""
  | [x] => x
  | x :: y :: rest => x ++ sep ++ pyJoin sep (y :: rest)

/-- Maximal runs of `\w` characters, accumulator form: this is exactly what
`re.findall(r'\b\w+\b', s)` returns. -/
def wordRunsAux : List Char → List Char → List (List Char)
  | [], acc => if acc.isEmpty then [] else [acc.reverse]
  | c :: rest, acc =>
    if pyIsWord c then wordRunsAux rest (c :: acc)
    else if acc.isEmpty then wordRunsAux rest []
    else acc.reverse :: wordRunsAux rest []

/-- Embeds `re.findall(r'\b\w+\b', s)`: the maximal word-character runs. -/
def wordRuns (s : String) : List String :=
  (wordRunsAux s.data []).map fun l => ⟨l⟩

/-- Regex AST covering exactly the constructs appearing in
`query_converter.py`'s patterns: literals, one-character classes,
concatenation, alternation, greedy star and capturing groups. -/
inductive RE where
  | lit (s : String)
  | cls (p : Char → Bool)
  | seq (a b : RE)
  | alt (a b : RE)
  | star (a : RE)
  | group (a : RE)

/-- Backtracking matcher with Python `re` semantics: greedy `*`,
left-preferring `|`, full backtracking through the continuation `k`.
Captured group texts are appended in order of group completion; every
pattern in this file has at most one group, so the head of the capture
list is Python's `group(1)`.  The fuel decreases at every call and is
chosen generously by the callers, so exhaustion is unreachable. -/
def reM : Nat → RE → List Char → List (List Char) →
    (List Char → List (List Char) → Option (List Char × List (List Char))) →
    Option (List Char × List (List Char))
  | 0, _, _, _, _ => none
  | _ + 1, .lit t, s, caps, k =>
    if t.data.isPrefixOf s then k (s.drop t.data.length) caps else none
  | _ + 1, .cls p, s, caps, k =>
    match s with
    | [] => none
    | c :: rest => if p c then k rest caps else none
  | fuel + 1, .seq a b, s, caps, k =>
    reM fuel a s caps (fun s1 c1 => reM fuel b s1 c1 k)
  | fuel + 1, .alt a b, s, caps, k =>
    (reM fuel a s caps k) <|> (reM fuel b s caps k)
  | fuel + 1, .group a, s, caps, k =>
    reM fuel a s caps (fun s1 c1 => k s1 (c1 ++ [s.take (s.length - s1.length)]))
  | fuel + 1, .star a, s, caps, k =>
    (reM fuel a s caps (fun s1 c1 =>
      if s1.length < s.length then reM fuel (.star a) s1 c1 k else none))
      <|> k s caps

/-- Syntactic size of a pattern, used to pick a sufficient fuel. -/
def reSize : RE → Nat
  | .lit _ => 1
  | .cls _ => 1
  | .seq a b => reSize a + reSize b + 1
  | .alt a b => reSize a + reSize b + 1
  | .star a => reSize a + 1
  | .group a => reSize a + 1

/-- Fuel that comfortably bounds the matcher's call depth on input `s`. -/
def reFuel (r : RE) (s : List Char) : Nat :=
  (reSize r + 2) * (s.length + 2)

/-- Python `re.search` on character lists: try every start position from the
left; at the first position where the pattern matches, return the text
before the match, the matched text, the captures, and the rest. -/
def reSearchL (r : RE) (s : List Char) :
    Option (List Char × List Char × List (List Char) × List Char) :=
  match reM (reFuel r s) r s [] (fun rest caps => some (rest, caps)) with
  | some (rest, caps) => some ([], s.take (s.length - rest.length), caps, rest)
  | none =>
    match s with
    | [] => none
    | c :: tail =>
      (reSearchL r tail).map fun pre_m => (c :: pre_m.1, pre_m.2)

/-- Python `re.search` on strings, returning the matched text and the list
of captured group texts. -/
def reSearch (r : RE) (s : String) : Option (String × List String) :=
  (reSearchL r s.data).map fun x => (⟨x.2.1⟩, x.2.2.1.map fun l => ⟨l⟩)

/-- Python `re.findall` core loop: non-overlapping matches left to right,
resuming after each match's end. -/
def reFindAllL (r : RE) : Nat → List Char → List (List Char × List (List Char))
  | 0, _ => []
  | fuel + 1, s =>
    match reSearchL r s with
    | none => []
    | some (_, m, caps, rest) =>
      if m.isEmpty then
        match rest with
        | [] => [(m, caps)]
        | _ :: t => (m, caps) :: reFindAllL r fuel t
      else (m, caps) :: reFindAllL r fuel rest

/-- Python `re.findall`: with one capturing group it returns the group
texts, with none the whole matches (the two cases this file uses). -/
def reFindAll (r : RE) (s : String) : List String :=
  (reFindAllL r (s.data.length + 1) s.data).map fun x => ⟨x.2.headD x.1⟩

/-- Python `re.sub(pattern, '', s)` core loop: delete every
non-overlapping match left to right. -/
def reRemoveL (r : RE) : Nat → List Char → List Char
  | 0, s => s
  | fuel + 1, s =>
    match reSearchL r s with
    | none => s
    | some (pre, m, _, rest) =>
      if m.isEmpty then s
      else pre ++ reRemoveL r fuel rest

/-- Python `re.sub(pattern, '', s)` on strings. -/
def reRemove (r : RE) (s : String) : String :=
  ⟨reRemoveL r (s.data.length + 1) s.data⟩

/-- Fold a nonempty list of alternatives into a left-preferring `|` chain. -/
def reAlts : List RE → RE
  | [] => .lit ""
  | [r] => r
  | r :: s :: rest => .alt r (reAlts (s :: rest))

/-- Greedy `+`: one occurrence then a greedy star. -/
def rePlus (r : RE) : RE := .seq r (.star r)

/-- Greedy `?`: prefer the present branch, as Python does. -/
def reOpt (r : RE) : RE := .alt r (.lit "")

/-- The class `[^\s,]`. -/
def reNotSpComma : RE := .cls fun c => !pyIsSpace c && c != ','

/-- The pattern fragment `\s+`. -/
def reWs : RE := rePlus (.cls pyIsSpace)

/-- The pattern fragment `[^\s,]+`. -/
def reName1 : RE := rePlus reNotSpComma

/-- The capture `([^\s,]+(?:\s+[^\s,]+)*)` shared by the name-extracting
patterns of `query_converter.py`. -/
def reNameCap : RE := .group (.seq reName1 (.star (.seq reWs reName1)))

/-- Association-list lookup, Python `dict.get(key)` with insertion-order
iteration. -/
def dget (d : List (String × String)) (k : String) : Option String :=
  (d.find? fun kv => kv.1 == k).map fun kv => kv.2

namespace QueryConverter

/-- `QueryConverter.work_item_types`, in the source's insertion order. -/
def work_item_types : List (String × String) :=
  [("bug", "Bug"), ("bugs", "Bug"),
   ("task", "Task"), ("tasks", "Task"),
   ("story", "User Story"), ("stories", "User Story"),
   ("user story", "User Story"), ("user stories", "User Story"),
   ("feature", "Feature"), ("features", "Feature"),
   ("epic", "Epic"), ("epics", "Epic"),
   ("issue", "Issue"), ("issues", "Issue"),
   ("test case", "Test Case"), ("test cases", "Test Case")]

/-- `QueryConverter.states`, in the source's insertion order. -/
def states : List (String × String) :=
  [("new", "New"), ("active", "Active"), ("resolved", "Resolved"),
   ("closed", "Closed"), ("done", "Done"), ("completed", "Done"),
   ("in progress", "Active"), ("todo", "To Do"), ("to do", "To Do"),
   ("removed", "Removed")]

/-- `QueryConverter.priorities`. -/
def priorities : List (String × String) :=
  [("critical", "1"), ("high", "2"), ("medium", "3"), ("low", "4"),
   ("1", "1"), ("2", "2"), ("3", "3"), ("4", "4")]

/-- `QueryConverter._extract_work_item_type`: first key of
`work_item_types` (in insertion order) occurring in the query wins. -/
def extract_work_item_type (query : String) : Option String :=
  (work_item_types.find? fun kv => pyIn kv.1 query).map fun kv => kv.2

/-- `QueryConverter._extract_state`. -/
def extract_state (query : String) : Option String :=
  (states.find? fun kv => pyIn kv.1 query).map fun kv => kv.2

/-- The first pattern of a list that `re.search` matches in `q`, returning
its captures (the shared loop shape `for pattern in patterns: ...`). -/
def firstSearch : List RE → String → Option (List String)
  | [], _ => none
  | p :: rest, q =>
    match reSearch p q with
    | some (_, caps) => some caps
    | none => firstSearch rest q

/-- The priority alternation `(critical|high|medium|low)`. -/
def rePrioWord : RE :=
  reAlts [.lit "critical", .lit "high", .lit "medium", .lit "low"]

/-- `QueryConverter._extract_priority`'s pattern list:
`priority\s+(\d+)`, `priority\s+(critical|high|medium|low)`,
`(critical|high|medium|low)\s+priority`. -/
def priority_patterns : List RE :=
  [.seq (.lit "priority") (.seq reWs (.group (rePlus (.cls Char.isDigit)))),
   .seq (.lit "priority") (.seq reWs (.group rePrioWord)),
   .seq (.group rePrioWord) (.seq reWs (.lit "priority"))]

/-- `QueryConverter._extract_priority`: the first matching pattern returns
(the function returns there), and its captured word is looked up in
`priorities`, possibly yielding nothing. -/
def extract_priority (query : String) : Option String :=
  match firstSearch priority_patterns query with
  | some (g :: _) => dget priorities (pyLower g)
  | some [] => none
  | none => none

/-- `QueryConverter._extract_assigned_to`'s regex patterns, in the
source's order: `assigned\s+to\s+(...)`, `assigned\s+(...)`,
`by\s+(...)`, `for\s+(...)`. -/
def assigned_patterns : List RE :=
  [.seq (.lit "assigned") (.seq reWs (.seq (.lit "to") (.seq reWs reNameCap))),
   .seq (.lit "assigned") (.seq reWs reNameCap),
   .seq (.lit "by") (.seq reWs reNameCap),
   .seq (.lit "for") (.seq reWs reNameCap)]

/-- The regex half of `QueryConverter._extract_assigned_to`: the first
matching pattern's `group(1).strip()`. -/
def assignedRegex (query : String) : Option String :=
  match firstSearch assigned_patterns query with
  | some (g :: _) => some (pyStrip g)
  | _ => none

/-- `QueryConverter._extract_assigned_to`: try the regex patterns first;
only when none matches, check the self-reference keywords
`my`/`mine`/`me` and then `unassigned`/`nobody`/`no one` as plain
substrings. -/
def extract_assigned_to (query : String) : Option String :=
  match assignedRegex query with
  | some m => some m
  | none =>
    if ["my", "mine", "me"].any (fun w => pyIn w query) then some "me"
    else if ["unassigned", "nobody", "no one"].any (fun w => pyIn w query) then
      some "unassigned"
    else none

/-- `QueryConverter._extract_created_by`'s patterns:
`created\s+by\s+(...)`, `authored\s+by\s+(...)`. -/
def created_by_patterns : List RE :=
  [.seq (.lit "created") (.seq reWs (.seq (.lit "by") (.seq reWs reNameCap))),
   .seq (.lit "authored") (.seq reWs (.seq (.lit "by") (.seq reWs reNameCap)))]

/-- `QueryConverter._extract_created_by`. -/
def extract_created_by (query : String) : Option String :=
  match firstSearch created_by_patterns query with
  | some (g :: _) => some (pyStrip g)
  | _ => none

/-- Rendering of `(datetime.now() - timedelta(days=k)).strftime('%Y-%m-%d')`
in the day-count clock model: the decimal numeral of `now - k`.  Python's
calendar arithmetic never goes below its epoch; `Nat` subtraction
truncates at zero, which no claim exercises. -/
def fmtDate (d : Nat) : String := toString d

/-- One entry of `QueryConverter.time_patterns`: either a plain pattern
with a fixed day offset, or a one-group pattern whose captured number
parametrizes the offset. -/
inductive TimePat where
  | simple (p : RE) (days : Nat)
  | grouped (p : RE) (days : Nat → Nat)

/-- The pattern `(\d+)\s+<unit>s?\s+ago`. -/
def reAgo (unit : String) : RE :=
  .seq (.group (rePlus (.cls Char.isDigit)))
    (.seq reWs (.seq (.lit unit) (.seq (reOpt (.lit "s")) (.seq reWs (.lit "ago")))))

/-- `QueryConverter.time_patterns`, in the source's insertion order, with
each lambda's `timedelta` reduced to its day count (`weeks=n` is `7*n`
days, the months entry uses `30*n` days as in the source). -/
def time_patterns : List TimePat :=
  [.simple (.lit "today") 0,
   .simple (.lit "yesterday") 1,
   .simple (.lit "this week") 7,
   .simple (.lit "last week") 14,
   .simple (.lit "this month") 30,
   .simple (.lit "last month") 60,
   .grouped (reAgo "day") (fun n => n),
   .grouped (reAgo "week") (fun n => 7 * n),
   .grouped (reAgo "month") (fun n => 30 * n)]

/-- The loop body of `QueryConverter._extract_time_conditions` for one
entry.  Every value of the source's `time_patterns` dict is a lambda, so
`callable(date_func)` is true for all entries and the "Patterns with
groups" else-branch is dead code: the grouped patterns also take the
simple branch, whose `date_func()` call passes no argument to their
one-argument lambdas and raises an uncaught `TypeError` (modeled as
`none`) whenever such a pattern matches and a trigger word (`created`,
else `changed`/`updated`/`modified`) occurs in the query.  Simple
entries emit a condition for the timestamp field the trigger picks.
The grouped entries' day-offset functions are transcribed from the
table but are never successfully applied. -/
def timeCond (now : Nat) (query : String) : TimePat → Option (List String)
  | .simple p days =>
    if (reSearch p query).isSome then
      if pyIn "created" query then
        some ["[System.CreatedDate] >= '" ++ fmtDate (now - days) ++ "'"]
      else if pyIn "changed" query || pyIn "updated" query || pyIn "modified" query then
        some ["[System.ChangedDate] >= '" ++ fmtDate (now - days) ++ "'"]
      else some []
    else some []
  | .grouped p _ =>
    if (reSearch p query).isSome then
      if pyIn "created" query then none
      else if pyIn "changed" query || pyIn "updated" query || pyIn "modified" query then
        none
      else some []
    else some []

/-- The loop of `_extract_time_conditions` over the pattern table: the
first entry that raises aborts the whole call (the exception
propagates and the conditions gathered so far are lost), otherwise the
entries' conditions accumulate in order. -/
def extract_time_aux (now : Nat) (query : String) : List TimePat → Option (List String)
  | [] => some []
  | tp :: rest =>
    match timeCond now query tp with
    | none => none
    | some cs =>
      match extract_time_aux now query rest with
      | none => none
      | some css => some (cs ++ css)

/-- `QueryConverter._extract_time_conditions`: `none` models the
uncaught `TypeError` raised for a parametrized time phrase occurring
together with a trigger word. -/
def extract_time_conditions (now : Nat) (query : String) : Option (List String) :=
  extract_time_aux now query time_patterns

/-- `QueryConverter._extract_search_terms`'s stop-word set. -/
def stop_words : List String :=
  ["show", "find", "get", "list", "all", "my", "the", "a", "an", "and", "or", "but",
   "in", "on", "at", "to", "for", "of", "with", "by", "from", "that", "which",
   "work", "item", "items", "assigned", "created", "changed", "updated", "modified",
   "priority", "state", "type", "title", "description", "tag", "tags", "area",
   "iteration"]

/-- The pattern `"([^"]+)"` for quoted phrases. -/
def reQuoted : RE :=
  .seq (.lit "\"") (.seq (.group (rePlus (.cls fun c => c != '\"'))) (.lit "\""))

/-- `QueryConverter._extract_search_terms`: strip every type and state
synonym, pull out quoted phrases, then keep the word runs that are not
stop words and are longer than two characters. -/
def extract_search_terms (query : String) : List String :=
  let cleaned := work_item_types.foldl (fun acc kv => pyReplace acc kv.1 "") query
  let cleaned := states.foldl (fun acc kv => pyReplace acc kv.1 "") cleaned
  let quoted_terms := reFindAll reQuoted cleaned
  let cleaned := reRemove reQuoted cleaned
  let words := wordRuns cleaned
  let meaningful := words.filter fun w =>
    !(stop_words.contains (pyLower w)) && w.length > 2
  quoted_terms ++ meaningful

/-- `QueryConverter._extract_tags`'s patterns: `tag[ged]*\s+([^\s,]+)`,
`with\s+tag\s+([^\s,]+)`, `#([^\s,]+)`. -/
def tag_patterns : List RE :=
  [.seq (.lit "tag") (.seq (.star (.cls fun c => c = 'g' || c = 'e' || c = 'd'))
     (.seq reWs (.group reName1))),
   .seq (.lit "with") (.seq reWs (.seq (.lit "tag") (.seq reWs (.group reName1)))),
   .seq (.lit "#") (.group reName1)]

/-- `QueryConverter._extract_tags`: every pattern contributes all of its
`findall` matches. -/
def extract_tags (query : String) : List String :=
  (tag_patterns.map fun p => reFindAll p query).flatten

/-- `QueryConverter._extract_area_path`'s patterns. -/
def area_patterns : List RE :=
  [.seq (.lit "in") (.seq reWs (.seq (.lit "area") (.seq reWs reNameCap))),
   .seq (.lit "area") (.seq reWs reNameCap)]

/-- `QueryConverter._extract_area_path`. -/
def extract_area_path (query : String) : Option String :=
  match firstSearch area_patterns query with
  | some (g :: _) => some (pyStrip g)
  | _ => none

/-- `QueryConverter._extract_iteration_path`'s patterns. -/
def iteration_patterns : List RE :=
  [.seq (.lit "in") (.seq reWs (.seq (.lit "iteration") (.seq reWs reNameCap))),
   .seq (.lit "iteration") (.seq reWs reNameCap),
   .seq (.lit "in") (.seq reWs (.seq (.lit "sprint") (.seq reWs reNameCap))),
   .seq (.lit "sprint") (.seq reWs reNameCap)]

/-- `QueryConverter._extract_iteration_path`. -/
def extract_iteration_path (query : String) : Option String :=
  match firstSearch iteration_patterns query with
  | some (g :: _) => some (pyStrip g)
  | _ => none

/-- The work-item-type condition appended by
`QueryConverter._parse_query_conditions`. -/
def typePart (query : String) : List String :=
  match extract_work_item_type query with
  | some t => ["[System.WorkItemType] = '" ++ t ++ "'"]
  | none => []

/-- The state condition appended by `_parse_query_conditions`. -/
def statePart (query : String) : List String :=
  match extract_state query with
  | some s => ["[System.State] = '" ++ s ++ "'"]
  | none => []

/-- The priority condition appended by `_parse_query_conditions`. -/
def priorityPart (query : String) : List String :=
  match extract_priority query with
  | some p => ["[Microsoft.VSTS.Common.Priority] = " ++ p]
  | none => []

/-- The assignee condition appended by `_parse_query_conditions`:
`= @Me` for `me`/`myself`, `= ''` for the unassigned keywords, and a
`CONTAINS` filter on the literal otherwise. -/
def assignedPart (query : String) : List String :=
  match extract_assigned_to query with
  | some a =>
    if ["me", "myself"].contains (pyLower a) then
      ["[System.AssignedTo] = @Me"]
    else if ["unassigned", "nobody", "no one"].contains (pyLower a) then
      ["[System.AssignedTo] = ''"]
    else
      ["[System.AssignedTo] CONTAINS '" ++ a ++ "'"]
  | none => []

/-- The author condition appended by `_parse_query_conditions`. -/
def createdByPart (query : String) : List String :=
  match extract_created_by query with
  | some c =>
    if ["me", "myself"].contains (pyLower c) then
      ["[System.CreatedBy] = @Me"]
    else
      ["[System.CreatedBy] CONTAINS '" ++ c ++ "'"]
  | none => []

/-- The parenthesized OR group of title/description search conditions
appended by `_parse_query_conditions`. -/
def searchPart (query : String) : List String :=
  let search_terms := extract_search_terms query
  if search_terms.isEmpty then []
  else
    let search_conditions := (search_terms.map fun term =>
      ["[System.Title] CONTAINS '" ++ term ++ "'",
       "[System.Description] CONTAINS '" ++ term ++ "'"]).flatten
    ["(" ++ pyJoin " OR " search_conditions ++ ")"]

/-- The tag conditions appended by `_parse_query_conditions`. -/
def tagsPart (query : String) : List String :=
  (extract_tags query).map fun tag => "[System.Tags] CONTAINS '" ++ tag ++ "'"

/-- The area-path condition appended by `_parse_query_conditions`. -/
def areaPart (query : String) : List String :=
  match extract_area_path query with
  | some a => ["[System.AreaPath] UNDER '" ++ a ++ "'"]
  | none => []

/-- The iteration-path condition appended by `_parse_query_conditions`. -/
def iterationPart (query : String) : List String :=
  match extract_iteration_path query with
  | some i => ["[System.IterationPath] UNDER '" ++ i ++ "'"]
  | none => []

/-- `QueryConverter._parse_query_conditions`: the passes append their
conditions in this fixed order (type, state, priority, assignee, author,
time, search group, tags, area path, iteration path).  The temporal
pass is the only one that can raise; its `TypeError` propagates
(`none`), discarding the conditions of the earlier passes and skipping
the later ones. -/
def parse_query_conditions (now : Nat) (query : String) : Option (List String) :=
  match extract_time_conditions now query with
  | none => none
  | some time_conditions =>
    some (typePart query ++ statePart query ++ priorityPart query ++
      assignedPart query ++ createdByPart query ++ time_conditions ++
      searchPart query ++ tagsPart query ++ areaPart query ++ iterationPart query)

/-- `QueryConverter.convert_to_wiql`'s fixed SELECT clause. -/
def select_clause : String :=
  "SELECT [System.Id], [System.Title], [System.WorkItemType], [System.State], [System.AssignedTo], [System.CreatedDate], [System.ChangedDate]"

/-- `QueryConverter.convert_to_wiql`'s FROM clause. -/
def from_clause : String := "FROM WorkItems"

/-- `QueryConverter.convert_to_wiql`'s unconditional ORDER BY clause. -/
def order_clause : String := "ORDER BY [System.ChangedDate] DESC"

/-- `QueryConverter.convert_to_wiql`: lower-case and strip the input,
collect the conditions, join them with AND into an optional WHERE
clause, and join the parts with spaces.  A `TypeError` raised by the
temporal pass propagates out of the function (`none`).  The `project`
argument is accepted and ignored exactly as in the source. -/
def convert_to_wiql (now : Nat) (natural_query : String) (project : Option String) :
    Option String :=
  let query := pyStrip (pyLower natural_query)
  match parse_query_conditions now query with
  | none => none
  | some where_conditions =>
    some (pyJoin " "
      ([select_clause, from_clause] ++
        (if where_conditions.isEmpty then []
         else ["WHERE " ++ pyJoin " AND " where_conditions]) ++
        [order_clause]))

end QueryConverter

/-- Python runtime values as they reach the field mapper: `None`, strings,
ints, floats (a parsed decimal `num / 10^scale`), `datetime` objects
(carrying their ISO rendering), lists of strings (the only lists the
mapper handles: tag lists) and objects with string entries (identity
payloads exposing `displayName`). -/
inductive Value where
  | vNone
  | vStr (s : String)
  | vInt (n : Int)
  | vFloat (num : Int) (scale : Nat)
  | vDatetime (iso : String)
  | vList (elems : List String)
  | vDict (entries : List (String × String))
deriving DecidableEq, Repr

/-- Python `int(x)` on a string: optional surrounding whitespace, optional
sign, then a nonempty digit run; anything else raises `ValueError`
(`none` here).  Exotic syntax (underscores, bases) is not exercised by
this repository. -/
def pyParseInt (s : String) : Option Int :=
  let t := (pyStrip s).data
  let core : List Char → Option Int := fun ds =>
    if ds.isEmpty || !(ds.all Char.isDigit) then none
    else some (Int.ofNat (digitsToNat ds))
  match t with
  | '-' :: ds => (core ds).map fun n => -n
  | '+' :: ds => core ds
  | ds => core ds

/-- Python `float(x)` on a string, restricted to the plain decimal
literals this repository can meet: optional whitespace and sign, digits
with an optional single point; the result is the scaled pair
`(num, scale)` with value `num / 10^scale`.  Exponents and the special
words raise here as well as go unused there. -/
def pyParseFloat (s : String) : Option (Int × Nat) :=
  let t := (pyStrip s).data
  let core : List Char → Option (Int × Nat) := fun ds =>
    let ip := ds.takeWhile Char.isDigit
    let rest := ds.drop ip.length
    match rest with
    | [] => if ip.isEmpty then none else some (Int.ofNat (digitsToNat ip), 0)
    | '.' :: fp =>
      if !(fp.all Char.isDigit) then none
      else if ip.isEmpty && fp.isEmpty then none
      else some (Int.ofNat (digitsToNat (ip ++ fp)), fp.length)
    | _ => none
  match t with
  | '-' :: ds => (core ds).map fun p => (-p.1, p.2)
  | '+' :: ds => core ds
  | ds => core ds

/-- Python `int(value)` over runtime values: strings parse, ints pass,
floats truncate toward zero, everything else raises (`none`). -/
def pyIntOfValue : Value → Option Int
  | .vStr s => pyParseInt s
  | .vInt n => some n
  | .vFloat num scale => some (Int.tdiv num (Int.ofNat (10 ^ scale)))
  | _ => none

/-- Python `float(value)` over runtime values. -/
def pyFloatOfValue : Value → Option (Int × Nat)
  | .vStr s => pyParseFloat s
  | .vInt n => some (n, 0)
  | .vFloat num scale => some (num, scale)
  | _ => none

/-- Decimal rendering of a scaled float, standing in for Python
`str(float)`; only its totality matters to the claims. -/
def renderFloat (num : Int) (scale : Nat) : String :=
  if scale = 0 then toString num ++ ".0"
  else
    let digits := toString num.natAbs
    let padded := String.mk (List.replicate (scale + 1 - digits.length) '0') ++ digits
    let cut := padded.length - scale
    (if num < 0 then "-" else "") ++
      ⟨padded.data.take cut⟩ ++ "." ++ ⟨padded.data.drop cut⟩

/-- Python `str(value)`: exact for strings and ints (the cases the claims
evaluate); a plain textual rendering for the remaining constructors. -/
def pyStrOfValue : Value → String
  | .vNone => "None"
  | .vStr s => s
  | .vInt n => toString n
  | .vFloat num scale => renderFloat num scale
  | .vDatetime iso => iso
  | .vList elems => "[" ++ pyJoin ", " elems ++ "]"
  | .vDict entries => "\x7b" ++ pyJoin ", " (entries.map fun kv => kv.1 ++ ": " ++ kv.2) ++ "\x7d"

/-- Modelled fragment of `datetime.fromisoformat` followed by
`isoformat()`: strings opening with a `YYYY-MM-DD` date parse and come
back unchanged, everything else raises `ValueError` (`none`).  No claim
exercises the accepted side's normalization. -/
def pyFromIso (s : String) : Option String :=
  match s.data with
  | y1 :: y2 :: y3 :: y4 :: '-' :: m1 :: m2 :: '-' :: d1 :: d2 :: _ =>
    if [y1, y2, y3, y4, m1, m2, d1, d2].all Char.isDigit then some s else none
  | _ => none

namespace FieldMapper

/-- `FieldMapper.field_mappings`, in the source's insertion order. -/
def field_mappings : List (String × String) :=
  [("id", "System.Id"),
   ("title", "System.Title"),
   ("description", "System.Description"),
   ("state", "System.State"),
   ("reason", "System.Reason"),
   ("assigned_to", "System.AssignedTo"),
   ("created_by", "System.CreatedBy"),
   ("changed_by", "System.ChangedBy"),
   ("created_date", "System.CreatedDate"),
   ("changed_date", "System.ChangedDate"),
   ("work_item_type", "System.WorkItemType"),
   ("area_path", "System.AreaPath"),
   ("iteration_path", "System.IterationPath"),
   ("tags", "System.Tags"),
   ("history", "System.History"),
   ("rev", "System.Rev"),
   ("authorized_date", "System.AuthorizedDate"),
   ("watermark", "System.Watermark"),
   ("comment_count", "System.CommentCount"),
   ("hyperlink_count", "System.HyperLinkCount"),
   ("attachment_count", "System.AttachedFileCount"),
   ("external_link_count", "System.ExternalLinkCount"),
   ("related_link_count", "System.RelatedLinkCount"),
   ("node_name", "System.NodeName"),
   ("area_id", "System.AreaId"),
   ("area_level1", "System.AreaLevel1"),
   ("area_level2", "System.AreaLevel2"),
   ("area_level3", "System.AreaLevel3"),
   ("area_level4", "System.AreaLevel4"),
   ("iteration_id", "System.IterationId"),
   ("iteration_level1", "System.IterationLevel1"),
   ("iteration_level2", "System.IterationLevel2"),
   ("iteration_level3", "System.IterationLevel3"),
   ("iteration_level4", "System.IterationLevel4"),
   ("priority", "Microsoft.VSTS.Common.Priority"),
   ("severity", "Microsoft.VSTS.Common.Severity"),
   ("value_area", "Microsoft.VSTS.Common.ValueArea"),
   ("risk", "Microsoft.VSTS.Common.Risk"),
   ("stack_rank", "Microsoft.VSTS.Common.StackRank"),
   ("business_value", "Microsoft.VSTS.Common.BusinessValue"),
   ("time_criticality", "Microsoft.VSTS.Common.TimeCriticality"),
   ("triage", "Microsoft.VSTS.Common.Triage"),
   ("acceptance_criteria", "Microsoft.VSTS.Common.AcceptanceCriteria"),
   ("activity", "Microsoft.VSTS.Common.Activity"),
   ("discipline", "Microsoft.VSTS.Common.Discipline"),
   ("resolution", "Microsoft.VSTS.Common.Resolution"),
   ("state_change_date", "Microsoft.VSTS.Common.StateChangeDate"),
   ("activated_date", "Microsoft.VSTS.Common.ActivatedDate"),
   ("activated_by", "Microsoft.VSTS.Common.ActivatedBy"),
   ("resolved_date", "Microsoft.VSTS.Common.ResolvedDate"),
   ("resolved_by", "Microsoft.VSTS.Common.ResolvedBy"),
   ("resolved_reason", "Microsoft.VSTS.Common.ResolvedReason"),
   ("closed_date", "Microsoft.VSTS.Common.ClosedDate"),
   ("closed_by", "Microsoft.VSTS.Common.ClosedBy"),
   ("rating", "Microsoft.VSTS.Common.Rating"),
   ("story_points", "Microsoft.VSTS.Scheduling.StoryPoints"),
   ("effort", "Microsoft.VSTS.Scheduling.Effort"),
   ("original_estimate", "Microsoft.VSTS.Scheduling.OriginalEstimate"),
   ("remaining_work", "Microsoft.VSTS.Scheduling.RemainingWork"),
   ("completed_work", "Microsoft.VSTS.Scheduling.CompletedWork"),
   ("start_date", "Microsoft.VSTS.Scheduling.StartDate"),
   ("finish_date", "Microsoft.VSTS.Scheduling.FinishDate"),
   ("due_date", "Microsoft.VSTS.Scheduling.DueDate"),
   ("target_date", "Microsoft.VSTS.Scheduling.TargetDate"),
   ("baseline_work", "Microsoft.VSTS.Scheduling.BaselineWork"),
   ("size", "Microsoft.VSTS.Scheduling.Size"),
   ("integration_build", "Microsoft.VSTS.Build.IntegrationBuild"),
   ("found_in", "Microsoft.VSTS.Build.FoundIn"),
   ("test_suite_type", "Microsoft.VSTS.TCM.TestSuiteType"),
   ("test_suite_type_id", "Microsoft.VSTS.TCM.TestSuiteTypeId"),
   ("query_text", "Microsoft.VSTS.TCM.QueryText"),
   ("parameters", "Microsoft.VSTS.TCM.Parameters"),
   ("local_data_source", "Microsoft.VSTS.TCM.LocalDataSource"),
   ("automated_test_name", "Microsoft.VSTS.TCM.AutomatedTestName"),
   ("automated_test_storage", "Microsoft.VSTS.TCM.AutomatedTestStorage"),
   ("automated_test_id", "Microsoft.VSTS.TCM.AutomatedTestId"),
   ("automated_test_type", "Microsoft.VSTS.TCM.AutomatedTestType"),
   ("steps", "Microsoft.VSTS.TCM.Steps"),
   ("repro_steps", "Microsoft.VSTS.TCM.ReproSteps"),
   ("system_info", "Microsoft.VSTS.TCM.SystemInfo")]

/-- Python dict assignment `d[k] = v`: overwrite in place when the key is
present, append otherwise. -/
def sdinsert (d : List (String × String)) (k v : String) : List (String × String) :=
  if d.any (fun kv => kv.1 == k) then
    d.map fun kv => if kv.1 == k then (k, v) else kv
  else d ++ [(k, v)]

/-- `FieldMapper.reverse_mappings`: the comprehension
`{v: k for k, v in field_mappings.items()}`, with later duplicates (there
are none) overwriting earlier ones. -/
def reverse_mappings : List (String × String) :=
  field_mappings.foldl (fun acc kv => sdinsert acc kv.2 kv.1) []

/-- `FieldMapper.get_field_reference`: case-insensitive canonical lookup,
unknown names pass through unchanged. -/
def get_field_reference (field_name : String) : String :=
  (dget field_mappings (pyLower field_name)).getD field_name

/-- `FieldMapper.get_field_name`: reverse lookup, unknown references pass
through unchanged. -/
def get_field_name (field_reference : String) : String :=
  (dget reverse_mappings field_reference).getD field_reference

/-- `FieldMapper.get_field_type`'s table. -/
def field_types : List (String × String) :=
  [("System.Id", "integer"),
   ("System.Title", "string"),
   ("System.Description", "html"),
   ("System.State", "string"),
   ("System.AssignedTo", "identity"),
   ("System.CreatedBy", "identity"),
   ("System.ChangedBy", "identity"),
   ("System.CreatedDate", "datetime"),
   ("System.ChangedDate", "datetime"),
   ("System.WorkItemType", "string"),
   ("System.AreaPath", "treepath"),
   ("System.IterationPath", "treepath"),
   ("System.Tags", "plaintext"),
   ("Microsoft.VSTS.Common.Priority", "integer"),
   ("Microsoft.VSTS.Common.Severity", "string"),
   ("Microsoft.VSTS.Scheduling.StoryPoints", "double"),
   ("Microsoft.VSTS.Scheduling.Effort", "double"),
   ("Microsoft.VSTS.Scheduling.OriginalEstimate", "double"),
   ("Microsoft.VSTS.Scheduling.RemainingWork", "double"),
   ("Microsoft.VSTS.Scheduling.CompletedWork", "double"),
   ("Microsoft.VSTS.Scheduling.StartDate", "datetime"),
   ("Microsoft.VSTS.Scheduling.FinishDate", "datetime"),
   ("Microsoft.VSTS.Scheduling.DueDate", "datetime"),
   ("Microsoft.VSTS.Common.AcceptanceCriteria", "html"),
   ("Microsoft.VSTS.TCM.ReproSteps", "html"),
   ("Microsoft.VSTS.TCM.Steps", "html"),
   ("Microsoft.VSTS.Common.BusinessValue", "integer"),
   ("Microsoft.VSTS.Common.TimeCriticality", "double"),
   ("Microsoft.VSTS.Common.StackRank", "double")]

/-- `FieldMapper.get_field_type`: unknown references default to
`string`. -/
def get_field_type (field_reference : String) : String :=
  (dget field_types field_reference).getD "string"

/-- `FieldMapper.format_field_value`: best-effort coercion by the field's
type.  Conversion errors are caught and return the original value; a
datetime-typed field whose value is neither a `datetime` nor a string
falls off the end of the `if` chain and returns Python `None`. -/
def format_field_value (field_reference : String) (value : Value) : Value :=
  let field_type := get_field_type field_reference
  if value = Value.vNone then Value.vNone
  else if field_type = "integer" then
    match pyIntOfValue value with
    | some n => Value.vInt n
    | none => value
  else if field_type = "double" then
    match pyFloatOfValue value with
    | some p => Value.vFloat p.1 p.2
    | none => value
  else if field_type = "datetime" then
    match value with
    | Value.vDatetime iso => Value.vStr iso
    | Value.vStr s =>
      match pyFromIso (pyReplace s "Z" "+00:00") with
      | some iso => Value.vStr iso
      | none => Value.vStr s
    | _ => Value.vNone
  else if ["string", "plaintext", "html", "treepath", "identity"].contains field_type then
    Value.vStr (pyStrOfValue value)
  else value

/-- The identity-typed references special-cased by
`FieldMapper.map_fields_for_creation`. -/
def identity_fields : List String :=
  ["System.AssignedTo", "System.CreatedBy", "System.ChangedBy"]

/-- The date references special-cased by `map_fields_for_creation`. -/
def date_fields : List String :=
  ["System.CreatedDate", "System.ChangedDate", "Microsoft.VSTS.Scheduling.StartDate",
   "Microsoft.VSTS.Scheduling.FinishDate", "Microsoft.VSTS.Scheduling.DueDate"]

/-- Python dict assignment on value dictionaries. -/
def dinsert (d : List (String × Value)) (k : String) (v : Value) : List (String × Value) :=
  if d.any (fun kv => kv.1 == k) then
    d.map fun kv => if kv.1 == k then (k, v) else kv
  else d ++ [(k, v)]

/-- One iteration of `map_fields_for_creation`'s loop: skip `None`
values, resolve the key, then apply the inline special cases (identity
fields accept a string or an object exposing `displayName`, tags join
lists with `'; '`, date fields accept a `datetime` or a string, every
other value is stored unchanged). -/
def map_step (mapped : List (String × Value)) (entry : String × Value) :
    List (String × Value) :=
  let field_name := entry.1
  let field_value := entry.2
  if field_value = Value.vNone then mapped
  else
    let field_ref := get_field_reference field_name
    if identity_fields.contains field_ref then
      match field_value with
      | Value.vStr s => dinsert mapped field_ref (Value.vStr s)
      | Value.vDict d =>
        match d.find? (fun kv => kv.1 == "displayName") with
        | some kv => dinsert mapped field_ref (Value.vStr kv.2)
        | none => mapped
      | _ => mapped
    else if field_ref = "System.Tags" then
      match field_value with
      | Value.vList elems => dinsert mapped field_ref (Value.vStr (pyJoin "; " elems))
      | v => dinsert mapped field_ref (Value.vStr (pyStrOfValue v))
    else if date_fields.contains field_ref then
      match field_value with
      | Value.vDatetime iso => dinsert mapped field_ref (Value.vStr iso)
      | Value.vStr s => dinsert mapped field_ref (Value.vStr s)
      | _ => mapped
    else dinsert mapped field_ref field_value

/-- `FieldMapper.map_fields_for_creation`: fold the loop body over the
input dictionary's entries in insertion order.  The work-item-type
argument is accepted and ignored exactly as in the source. -/
def map_fields_for_creation (fields : List (String × Value))
    (work_item_type : String) : List (String × Value) :=
  fields.foldl map_step []

end FieldMapper

/-! Helper lemmas shared by the claims below. -/

/-- Unfolding of `String.append` at the character-list level. -/
theorem strData_append (a b : String) : (a ++ b).data = a.data ++ b.data := rfl

/-- Boolean prefix test on character lists, with equations convenient for
the clause-shape lemmas below. -/
def lpre : List Char → List Char → Bool
  | [], _ => true
  | _ :: _, [] => false
  | a :: as, b :: bs => a == b && lpre as bs

/-- Whether the string `s` starts with the literal `pat`: the predicate
the claims use to classify emitted WIQL conditions. -/
def strStarts (pat s : String) : Bool :=
  lpre pat.data s.data

theorem lpre_append_of_lpre : ∀ (p t r : List Char), lpre p t = true →
    lpre p (t ++ r) = true
  | [], _, _, _ => rfl
  | _ :: _, [], _, h => by simp [lpre] at h
  | a :: as, b :: bs, r, h => by
    simp only [lpre, Bool.and_eq_true] at h
    simp only [List.cons_append, lpre, Bool.and_eq_true]
    exact ⟨h.1, lpre_append_of_lpre as bs r h.2⟩

theorem lpre_append_false : ∀ (p t r : List Char), lpre p t = false →
    lpre t p = false → lpre p (t ++ r) = false
  | [], _, _, h1, _ => by simp [lpre] at h1
  | _ :: _, [], _, _, h2 => by simp [lpre] at h2
  | a :: as, b :: bs, r, h1, h2 => by
    by_cases hab : (a == b) = true
    · have hba : (b == a) = true := by
        rw [beq_iff_eq] at hab ⊢
        exact hab.symm
      simp only [lpre, hab, Bool.true_and] at h1
      simp only [lpre, hba, Bool.true_and] at h2
      simp only [List.cons_append, lpre, hab, Bool.true_and]
      exact lpre_append_false as bs r h1 h2
    · simp only [List.cons_append, lpre, Bool.and_eq_false_imp]
      intro h
      exact absurd h hab

/-- A member of a Python join is a substring of the joined text. -/
theorem mem_pyJoin_isInfix (sep : String) :
    ∀ (l : List String) (s : String), s ∈ l → s.data <:+: (pyJoin sep l).data := by
  intro l
  induction l with
  | nil => intro s hs; simp at hs
  | cons x t ih =>
    intro s hs
    cases t with
    | nil =>
      simp at hs
      subst hs
      exact List.infix_rfl
    | cons y t' =>
      rcases List.mem_cons.mp hs with hx | hmem
      · subst hx
        have hdata : (s ++ sep ++ pyJoin sep (y :: t')).data =
            s.data ++ (sep.data ++ (pyJoin sep (y :: t')).data) := by
          simp [strData_append]
        show s.data <:+: (s ++ sep ++ pyJoin sep (y :: t')).data
        rw [hdata]
        exact (List.prefix_append _ _).isInfix
      · have h1 := ih s hmem
        show s.data <:+: (x ++ sep ++ pyJoin sep (y :: t')).data
        rw [strData_append]
        exact h1.trans (List.suffix_append _ _).isInfix

/-- The last element of a Python join is a suffix of the joined text. -/
theorem pyJoin_concat_suffix (sep : String) :
    ∀ (l : List String) (x : String), x.data <:+ (pyJoin sep (l ++ [x])).data := by
  intro l
  induction l with
  | nil => intro x; exact List.suffix_rfl
  | cons a t ih =>
    intro x
    cases ht : t ++ [x] with
    | nil => exact absurd ht (by simp)
    | cons c cs =>
      have hx := ih x
      rw [ht] at hx
      show x.data <:+ (pyJoin sep (a :: (t ++ [x]))).data
      rw [ht]
      show x.data <:+ (a ++ sep ++ pyJoin sep (c :: cs)).data
      rw [strData_append]
      exact hx.trans (List.suffix_append _ _)

/-- `convert_to_wiql` unfolded to its join-of-parts form on the
non-raising path. -/
theorem convert_to_wiql_ok (now : Nat) (q : String) (p : Option String)
    (wc : List String)
    (h : QueryConverter.parse_query_conditions now (pyStrip (pyLower q)) = some wc) :
    QueryConverter.convert_to_wiql now q p =
      some (pyJoin " "
        ([QueryConverter.select_clause, QueryConverter.from_clause] ++
          (if wc.isEmpty then [] else ["WHERE " ++ pyJoin " AND " wc]) ++
          [QueryConverter.order_clause])) := by
  unfold QueryConverter.convert_to_wiql
  dsimp only
  rw [h]

open QueryConverter in
/-- Every condition the type pass emits opens with its field literal. -/
theorem typePart_shape (q c : String) (h : c ∈ typePart q) :
    ∃ r, c.data = "[System.WorkItemType] = '".data ++ r := by
  unfold typePart at h
  cases hx : extract_work_item_type q with
  | none => rw [hx] at h; simp at h
  | some t =>
    rw [hx] at h
    simp at h
    subst h
    exact ⟨t.data ++ "'".data, by simp [strData_append]⟩

open QueryConverter in
/-- Every condition the state pass emits opens with its field literal. -/
theorem statePart_shape (q c : String) (h : c ∈ statePart q) :
    ∃ r, c.data = "[System.State] = '".data ++ r := by
  unfold statePart at h
  cases hx : extract_state q with
  | none => rw [hx] at h; simp at h
  | some s =>
    rw [hx] at h
    simp at h
    subst h
    exact ⟨s.data ++ "'".data, by simp [strData_append]⟩

open QueryConverter in
/-- Every condition the priority pass emits opens with its field literal. -/
theorem priorityPart_shape (q c : String) (h : c ∈ priorityPart q) :
    ∃ r, c.data = "[Microsoft.VSTS.Common.Priority] = ".data ++ r := by
  unfold priorityPart at h
  cases hx : extract_priority q with
  | none => rw [hx] at h; simp at h
  | some p =>
    rw [hx] at h
    simp at h
    subst h
    exact ⟨p.data, by simp [strData_append]⟩

open QueryConverter in
/-- Every condition the assignee pass emits opens with its field literal. -/
theorem assignedPart_shape (q c : String) (h : c ∈ assignedPart q) :
    ∃ r, c.data = "[System.AssignedTo]".data ++ r := by
  unfold assignedPart at h
  cases hx : extract_assigned_to q with
  | none => rw [hx] at h; simp at h
  | some a =>
    rw [hx] at h
    simp only [] at h
    split_ifs at h with h1 h2
    · simp at h
      subst h
      exact ⟨" = @Me".data, by decide⟩
    · simp at h
      subst h
      exact ⟨" = ''".data, by decide⟩
    · simp at h
      subst h
      refine ⟨" CONTAINS '".data ++ (a.data ++ "'".data), ?_⟩
      have hp : "[System.AssignedTo] CONTAINS '".data =
          "[System.AssignedTo]".data ++ " CONTAINS '".data := by decide
      simp [strData_append, List.append_assoc, hp]

open QueryConverter in
/-- Every condition the author pass emits opens with its field literal. -/
theorem createdByPart_shape (q c : String) (h : c ∈ createdByPart q) :
    ∃ r, c.data = "[System.CreatedBy]".data ++ r := by
  unfold createdByPart at h
  cases hx : extract_created_by q with
  | none => rw [hx] at h; simp at h
  | some a =>
    rw [hx] at h
    simp only [] at h
    split_ifs at h with h1
    · simp at h
      subst h
      exact ⟨" = @Me".data, by decide⟩
    · simp at h
      subst h
      refine ⟨" CONTAINS '".data ++ (a.data ++ "'".data), ?_⟩
      have hp : "[System.CreatedBy] CONTAINS '".data =
          "[System.CreatedBy]".data ++ " CONTAINS '".data := by decide
      simp [strData_append, List.append_assoc, hp]

open QueryConverter in
/-- A member of a successful temporal-pass result comes from some table
entry's successful loop-body result. -/
theorem extract_time_aux_mem (now : Nat) (query : String) :
    ∀ (l : List TimePat) (ts : List String) (c : String),
      extract_time_aux now query l = some ts → c ∈ ts →
      ∃ tp ∈ l, ∃ cs, timeCond now query tp = some cs ∧ c ∈ cs
  | [], ts, c, hok, hc => by
    simp [extract_time_aux] at hok
    subst hok
    simp at hc
  | tp :: rest, ts, c, hok, hc => by
    unfold extract_time_aux at hok
    cases h1 : timeCond now query tp with
    | none => rw [h1] at hok; simp at hok
    | some cs =>
      rw [h1] at hok
      cases h2 : extract_time_aux now query rest with
      | none => rw [h2] at hok; simp at hok
      | some css =>
        rw [h2] at hok
        simp only [] at hok
        injection hok with hts
        rcases List.mem_append.mp (hts ▸ hc) with h | h
        · exact ⟨tp, by simp, cs, h1, h⟩
        · obtain ⟨tp', htp', cs', hcs', hc'⟩ :=
            extract_time_aux_mem now query rest css c h2 h
          exact ⟨tp', List.mem_cons_of_mem _ htp', cs', hcs', hc'⟩

open QueryConverter in
/-- Every condition a successful temporal pass emits opens with one of
the two timestamp field literals. -/
theorem timeConds_shape (now : Nat) (q : String) (ts : List String)
    (hok : extract_time_conditions now q = some ts) (c : String) (h : c ∈ ts) :
    (∃ r, c.data = "[System.CreatedDate] >= '".data ++ r) ∨
    (∃ r, c.data = "[System.ChangedDate] >= '".data ++ r) := by
  obtain ⟨tp, _, cs, hcs, hc⟩ := extract_time_aux_mem now q time_patterns ts c hok h
  cases tp with
  | simple p days =>
    unfold timeCond at hcs
    simp only [] at hcs
    split_ifs at hcs with h1 h2 h3
    · injection hcs with hcs
      rw [← hcs] at hc
      simp at hc
      subst hc
      exact Or.inl ⟨(fmtDate (now - days)).data ++ "'".data, by simp [strData_append]⟩
    · injection hcs with hcs
      rw [← hcs] at hc
      simp at hc
      subst hc
      exact Or.inr ⟨(fmtDate (now - days)).data ++ "'".data, by simp [strData_append]⟩
    · injection hcs with hcs
      rw [← hcs] at hc
      simp at hc
    · injection hcs with hcs
      rw [← hcs] at hc
      simp at hc
  | grouped p f =>
    unfold timeCond at hcs
    simp only [] at hcs
    split_ifs at hcs with h1 h2 h3
    · simp at hcs
      subst hcs
      simp at hc
    · simp at hcs
      subst hcs
      simp at hc

/-- Splitting the data of a parenthesized concatenation. -/
theorem paren_split (a b : String) :
    ("(" ++ a ++ b).data = "(".data ++ (a.data ++ b.data) := by
  rw [strData_append, strData_append, List.append_assoc]

open QueryConverter in
/-- The search pass emits only the one parenthesized OR group. -/
theorem searchPart_shape (q c : String) (h : c ∈ searchPart q) :
    ∃ r, c.data = "(".data ++ r := by
  unfold searchPart at h
  dsimp only at h
  split_ifs at h with h1
  · exact absurd h (List.not_mem_nil c)
  · rw [List.mem_singleton] at h
    exact ⟨_, by rw [h]; exact paren_split _ _⟩

open QueryConverter in
/-- Every condition the tag pass emits opens with its field literal. -/
theorem tagsPart_shape (q c : String) (h : c ∈ tagsPart q) :
    ∃ r, c.data = "[System.Tags] CONTAINS '".data ++ r := by
  unfold tagsPart at h
  rw [List.mem_map] at h
  obtain ⟨tag, _, hc⟩ := h
  subst hc
  exact ⟨tag.data ++ "'".data, by simp [strData_append]⟩

open QueryConverter in
/-- Every condition the area pass emits opens with its field literal. -/
theorem areaPart_shape (q c : String) (h : c ∈ areaPart q) :
    ∃ r, c.data = "[System.AreaPath] UNDER '".data ++ r := by
  unfold areaPart at h
  cases hx : extract_area_path q with
  | none => rw [hx] at h; simp at h
  | some a =>
    rw [hx] at h
    simp at h
    subst h
    exact ⟨a.data ++ "'".data, by simp [strData_append]⟩

open QueryConverter in
/-- Every condition the iteration pass emits opens with its field literal. -/
theorem iterationPart_shape (q c : String) (h : c ∈ iterationPart q) :
    ∃ r, c.data = "[System.IterationPath] UNDER '".data ++ r := by
  unfold iterationPart at h
  cases hx : extract_iteration_path q with
  | none => rw [hx] at h; simp at h
  | some i =>
    rw [hx] at h
    simp at h
    subst h
    exact ⟨i.data ++ "'".data, by simp [strData_append]⟩

/-- A string opening with a literal that extends `pat` starts with `pat`. -/
theorem starts_of_shape (pat : String) {pre c : String} (r : List Char)
    (hc : c.data = pre.data ++ r) (h : lpre pat.data pre.data = true) :
    strStarts pat c = true := by
  unfold strStarts
  rw [hc]
  exact lpre_append_of_lpre _ _ _ h

/-- A string opening with a literal incomparable with `pat` does not
start with `pat`. -/
theorem not_starts_of_shape {pat pre c : String} (r : List Char)
    (hc : c.data = pre.data ++ r) (h1 : lpre pat.data pre.data = false)
    (h2 : lpre pre.data pat.data = false) :
    strStarts pat c = false := by
  unfold strStarts
  rw [hc]
  exact lpre_append_false _ _ _ h1 h2

/-- Classifier for the parenthesized OR search group among emitted
conditions. -/
def isSearchGroup (c : String) : Bool := strStarts "(" c

/-- Classifier for tag, area-path and iteration-path conditions among
emitted conditions. -/
def isTagAreaIter (c : String) : Bool :=
  strStarts "[System.Tags]" c || strStarts "[System.AreaPath]" c ||
    strStarts "[System.IterationPath]" c

theorem tai_false {c : String} (h1 : strStarts "[System.Tags]" c = false)
    (h2 : strStarts "[System.AreaPath]" c = false)
    (h3 : strStarts "[System.IterationPath]" c = false) : isTagAreaIter c = false := by
  simp [isTagAreaIter, h1, h2, h3]

open QueryConverter in
/-- Classification of type-pass conditions by the three claim predicates. -/
theorem typePart_class (q c : String) (h : c ∈ typePart q) :
    strStarts "[System.WorkItemType] = " c = true ∧ isSearchGroup c = false ∧
      isTagAreaIter c = false := by
  obtain ⟨r, hr⟩ := typePart_shape q c h
  exact ⟨starts_of_shape _ r hr (by decide),
    not_starts_of_shape r hr (by decide) (by decide),
    tai_false (not_starts_of_shape r hr (by decide) (by decide))
      (not_starts_of_shape r hr (by decide) (by decide))
      (not_starts_of_shape r hr (by decide) (by decide))⟩

open QueryConverter in
/-- Classification of state-pass conditions. -/
theorem statePart_class (q c : String) (h : c ∈ statePart q) :
    strStarts "[System.WorkItemType] = " c = false ∧ isSearchGroup c = false ∧
      isTagAreaIter c = false := by
  obtain ⟨r, hr⟩ := statePart_shape q c h
  exact ⟨not_starts_of_shape r hr (by decide) (by decide),
    not_starts_of_shape r hr (by decide) (by decide),
    tai_false (not_starts_of_shape r hr (by decide) (by decide))
      (not_starts_of_shape r hr (by decide) (by decide))
      (not_starts_of_shape r hr (by decide) (by decide))⟩

open QueryConverter in
/-- Classification of priority-pass conditions. -/
theorem priorityPart_class (q c : String) (h : c ∈ priorityPart q) :
    strStarts "[System.WorkItemType] = " c = false ∧ isSearchGroup c = false ∧
      isTagAreaIter c = false := by
  obtain ⟨r, hr⟩ := priorityPart_shape q c h
  exact ⟨not_starts_of_shape r hr (by decide) (by decide),
    not_starts_of_shape r hr (by decide) (by decide),
    tai_false (not_starts_of_shape r hr (by decide) (by decide))
      (not_starts_of_shape r hr (by decide) (by decide))
      (not_starts_of_shape r hr (by decide) (by decide))⟩

open QueryConverter in
/-- Classification of assignee-pass conditions. -/
theorem assignedPart_class (q c : String) (h : c ∈ assignedPart q) :
    strStarts "[System.WorkItemType] = " c = false ∧ isSearchGroup c = false ∧
      isTagAreaIter c = false := by
  obtain ⟨r, hr⟩ := assignedPart_shape q c h
  exact ⟨not_starts_of_shape r hr (by decide) (by decide),
    not_starts_of_shape r hr (by decide) (by decide),
    tai_false (not_starts_of_shape r hr (by decide) (by decide))
      (not_starts_of_shape r hr (by decide) (by decide))
      (not_starts_of_shape r hr (by decide) (by decide))⟩

open QueryConverter in
/-- Classification of author-pass conditions. -/
theorem createdByPart_class (q c : String) (h : c ∈ createdByPart q) :
    strStarts "[System.WorkItemType] = " c = false ∧ isSearchGroup c = false ∧
      isTagAreaIter c = false := by
  obtain ⟨r, hr⟩ := createdByPart_shape q c h
  exact ⟨not_starts_of_shape r hr (by decide) (by decide),
    not_starts_of_shape r hr (by decide) (by decide),
    tai_false (not_starts_of_shape r hr (by decide) (by decide))
      (not_starts_of_shape r hr (by decide) (by decide))
      (not_starts_of_shape r hr (by decide) (by decide))⟩

open QueryConverter in
/-- Classification of temporal-pass conditions on the non-raising path. -/
theorem timeConds_class (now : Nat) (q : String) (ts : List String)
    (hok : extract_time_conditions now q = some ts) (c : String) (h : c ∈ ts) :
    strStarts "[System.WorkItemType] = " c = false ∧ isSearchGroup c = false ∧
      isTagAreaIter c = false := by
  rcases timeConds_shape now q ts hok c h with ⟨r, hr⟩ | ⟨r, hr⟩ <;>
    exact ⟨not_starts_of_shape r hr (by decide) (by decide),
      not_starts_of_shape r hr (by decide) (by decide),
      tai_false (not_starts_of_shape r hr (by decide) (by decide))
        (not_starts_of_shape r hr (by decide) (by decide))
        (not_starts_of_shape r hr (by decide) (by decide))⟩

open QueryConverter in
/-- Classification of the search-pass OR group. -/
theorem searchPart_class (q c : String) (h : c ∈ searchPart q) :
    strStarts "[System.WorkItemType] = " c = false ∧ isSearchGroup c = true ∧
      isTagAreaIter c = false := by
  obtain ⟨r, hr⟩ := searchPart_shape q c h
  exact ⟨not_starts_of_shape r hr (by decide) (by decide),
    starts_of_shape _ r hr (by decide),
    tai_false (not_starts_of_shape r hr (by decide) (by decide))
      (not_starts_of_shape r hr (by decide) (by decide))
      (not_starts_of_shape r hr (by decide) (by decide))⟩

open QueryConverter in
/-- Classification of tag-pass conditions. -/
theorem tagsPart_class (q c : String) (h : c ∈ tagsPart q) :
    strStarts "[System.WorkItemType] = " c = false ∧ isSearchGroup c = false ∧
      isTagAreaIter c = true := by
  obtain ⟨r, hr⟩ := tagsPart_shape q c h
  refine ⟨not_starts_of_shape r hr (by decide) (by decide),
    not_starts_of_shape r hr (by decide) (by decide), ?_⟩
  have := starts_of_shape "[System.Tags]" r hr (by decide)
  simp [isTagAreaIter, this]

open QueryConverter in
/-- Classification of area-pass conditions. -/
theorem areaPart_class (q c : String) (h : c ∈ areaPart q) :
    strStarts "[System.WorkItemType] = " c = false ∧ isSearchGroup c = false ∧
      isTagAreaIter c = true := by
  obtain ⟨r, hr⟩ := areaPart_shape q c h
  refine ⟨not_starts_of_shape r hr (by decide) (by decide),
    not_starts_of_shape r hr (by decide) (by decide), ?_⟩
  have := starts_of_shape "[System.AreaPath]" r hr (by decide)
  simp [isTagAreaIter, this]

open QueryConverter in
/-- Classification of iteration-pass conditions. -/
theorem iterationPart_class (q c : String) (h : c ∈ iterationPart q) :
    strStarts "[System.WorkItemType] = " c = false ∧ isSearchGroup c = false ∧
      isTagAreaIter c = true := by
  obtain ⟨r, hr⟩ := iterationPart_shape q c h
  refine ⟨not_starts_of_shape r hr (by decide) (by decide),
    not_starts_of_shape r hr (by decide) (by decide), ?_⟩
  have := starts_of_shape "[System.IterationPath]" r hr (by decide)
  simp [isTagAreaIter, this]

/-- Longest-match type lookup, modelled from the spec sentence
"longest-match lookup against a table of type synonyms": among the
synonyms occurring in the query, the longest one's type wins.  Declared
only to compare with the source's first-match `extract_work_item_type`. -/
def longestMatchingType (query : String) : Option String :=
  ((QueryConverter.work_item_types.filter fun kv => pyIn kv.1 query).foldl
    (fun best kv =>
      match best with
      | none => some kv
      | some b => if kv.1.length > b.1.length then some kv else some b)
    none).map fun kv => kv.2

open QueryConverter in
/-- C4 (counterexample): on "bug feature" the source emits the type of
the first table synonym occurring in the query (`Bug`), while the
longest matching synonym is `feature`, whose type is `Feature`: the
longest-match reading of the claim is false. -/
theorem c4_counterexample :
    QueryConverter.extract_work_item_type "bug feature" = some "Bug" ∧
    longestMatchingType "bug feature" = some "Feature" ∧
    QueryConverter.typePart "bug feature" = ["[System.WorkItemType] = 'Bug'"] := by
  decide

open QueryConverter in
/-- C4 (amended): entity-type extraction resolves by the first synonym in
the table's fixed insertion order that occurs in the query (not by
longest match), and — whenever the temporal pass does not raise, so a
condition list is returned at all — exactly one type condition is
emitted. -/
theorem c4_amended_first_match (now : Nat) (q : String)
    (pre post : List (String × String)) (k v : String) (ts : List String)
    (htab : work_item_types = pre ++ (k, v) :: post)
    (hpre : ∀ kv ∈ pre, pyIn kv.1 q = false)
    (hin : pyIn k q = true)
    (htime : extract_time_conditions now q = some ts) :
    typePart q = ["[System.WorkItemType] = '" ++ v ++ "'"] ∧
    ∃ l, parse_query_conditions now q = some l ∧
      l.countP (fun c => strStarts "[System.WorkItemType] = " c) = 1 := by
  have hfind : work_item_types.find? (fun kv => pyIn kv.1 q) = some (k, v) := by
    rw [htab, List.find?_append]
    have h1 : pre.find? (fun kv => pyIn kv.1 q) = none :=
      List.find?_eq_none.mpr fun kv hkv => by simp [hpre kv hkv]
    rw [h1]
    simp [List.find?_cons_of_pos, hin]
  have hext : extract_work_item_type q = some v := by
    unfold extract_work_item_type
    rw [hfind]
    rfl
  have hT : typePart q = ["[System.WorkItemType] = '" ++ v ++ "'"] := by
    unfold typePart
    rw [hext]
  refine ⟨hT, ?_⟩
  have hp : parse_query_conditions now q =
      some (typePart q ++ statePart q ++ priorityPart q ++ assignedPart q ++
        createdByPart q ++ ts ++ searchPart q ++ tagsPart q ++ areaPart q ++
        iterationPart q) := by
    unfold parse_query_conditions
    rw [htime]
  refine ⟨_, hp, ?_⟩
  repeat rw [List.countP_append]
  have c1 : (typePart q).countP (fun c => strStarts "[System.WorkItemType] = " c) = 1 := by
    rw [hT]
    have hd : ("[System.WorkItemType] = '" ++ v ++ "'").data =
        "[System.WorkItemType] = '".data ++ (v.data ++ "'".data) := by
      simp [strData_append]
    have hp := starts_of_shape "[System.WorkItemType] = " _ hd (by decide)
    simp [List.countP_cons, hp]
  have z2 : (statePart q).countP (fun c => strStarts "[System.WorkItemType] = " c) = 0 :=
    List.countP_eq_zero.mpr fun c hc => by simp [(statePart_class q c hc).1]
  have z3 : (priorityPart q).countP (fun c => strStarts "[System.WorkItemType] = " c) = 0 :=
    List.countP_eq_zero.mpr fun c hc => by simp [(priorityPart_class q c hc).1]
  have z4 : (assignedPart q).countP (fun c => strStarts "[System.WorkItemType] = " c) = 0 :=
    List.countP_eq_zero.mpr fun c hc => by simp [(assignedPart_class q c hc).1]
  have z5 : (createdByPart q).countP (fun c => strStarts "[System.WorkItemType] = " c) = 0 :=
    List.countP_eq_zero.mpr fun c hc => by simp [(createdByPart_class q c hc).1]
  have z6 : ts.countP (fun c => strStarts "[System.WorkItemType] = " c) = 0 :=
    List.countP_eq_zero.mpr fun c hc => by simp [(timeConds_class now q ts htime c hc).1]
  have z7 : (searchPart q).countP (fun c => strStarts "[System.WorkItemType] = " c) = 0 :=
    List.countP_eq_zero.mpr fun c hc => by simp [(searchPart_class q c hc).1]
  have z8 : (tagsPart q).countP (fun c => strStarts "[System.WorkItemType] = " c) = 0 :=
    List.countP_eq_zero.mpr fun c hc => by simp [(tagsPart_class q c hc).1]
  have z9 : (areaPart q).countP (fun c => strStarts "[System.WorkItemType] = " c) = 0 :=
    List.countP_eq_zero.mpr fun c hc => by simp [(areaPart_class q c hc).1]
  have z10 : (iterationPart q).countP (fun c => strStarts "[System.WorkItemType] = " c) = 0 :=
    List.countP_eq_zero.mpr fun c hc => by simp [(iterationPart_class q c hc).1]
  rw [c1, z2, z3, z4, z5, z6, z7, z8, z9, z10]

/-- C4 (witness): the amended first-match statement instantiated at the
counterexample query, with `bug` the first matching table entry and a
non-raising temporal pass. -/
theorem c4_amended_witness :
    QueryConverter.typePart "bug feature" = ["[System.WorkItemType] = 'Bug'"] ∧
    ∃ l, QueryConverter.parse_query_conditions 0 "bug feature" = some l ∧
      l.countP (fun c => strStarts "[System.WorkItemType] = " c) = 1 :=
  c4_amended_first_match 0 "bug feature" [] (QueryConverter.work_item_types.tail)
    "bug" "Bug" [] (by rfl) (by simp) (by decide) (by decide)

open QueryConverter in
/-- C5 (counterexample): on "urgent #frontend" the parenthesized OR
search group is emitted before the tag condition, so the claim that the
group appears after every tag condition is false. -/
theorem c5_counterexample :
    QueryConverter.parse_query_conditions 0 "urgent #frontend" =
      some
        ["([System.Title] CONTAINS 'urgent' OR [System.Description] CONTAINS 'urgent' OR [System.Title] CONTAINS 'frontend' OR [System.Description] CONTAINS 'frontend')",
         "[System.Tags] CONTAINS 'frontend'"] ∧
    isSearchGroup "([System.Title] CONTAINS 'urgent' OR [System.Description] CONTAINS 'urgent' OR [System.Title] CONTAINS 'frontend' OR [System.Description] CONTAINS 'frontend')" = true ∧
    isTagAreaIter "[System.Tags] CONTAINS 'frontend'" = true := by
  decide

open QueryConverter in
/-- C5 (amended): whenever translation returns a condition list at all
(the temporal pass did not raise), conditions appear in insertion order
along the fixed pass order with everything AND-joined, but the
parenthesized OR group of search-term conditions is emitted before —
not after — every tag, area-path and iteration-path condition: among
the emitted conditions, every search group precedes every
tag/area/iteration condition. -/
theorem c5_amended_group_before_tags (now : Nat) (q : String) (l : List String)
    (hl : parse_query_conditions now q = some l) :
    l.filter (fun c => isSearchGroup c || isTagAreaIter c) =
      l.filter (fun c => isSearchGroup c) ++ l.filter (fun c => isTagAreaIter c) := by
  unfold parse_query_conditions at hl
  cases hts : extract_time_conditions now q with
  | none => rw [hts] at hl; simp at hl
  | some ts =>
  rw [hts] at hl
  simp only [] at hl
  injection hl with hl
  subst hl
  repeat rw [List.filter_append]
  have o1 : (typePart q).filter (fun c => isSearchGroup c || isTagAreaIter c) = [] :=
    List.filter_eq_nil_iff.mpr fun c hc => by
      simp [(typePart_class q c hc).2.1, (typePart_class q c hc).2.2]
  have o2 : (statePart q).filter (fun c => isSearchGroup c || isTagAreaIter c) = [] :=
    List.filter_eq_nil_iff.mpr fun c hc => by
      simp [(statePart_class q c hc).2.1, (statePart_class q c hc).2.2]
  have o3 : (priorityPart q).filter (fun c => isSearchGroup c || isTagAreaIter c) = [] :=
    List.filter_eq_nil_iff.mpr fun c hc => by
      simp [(priorityPart_class q c hc).2.1, (priorityPart_class q c hc).2.2]
  have o4 : (assignedPart q).filter (fun c => isSearchGroup c || isTagAreaIter c) = [] :=
    List.filter_eq_nil_iff.mpr fun c hc => by
      simp [(assignedPart_class q c hc).2.1, (assignedPart_class q c hc).2.2]
  have o5 : (createdByPart q).filter (fun c => isSearchGroup c || isTagAreaIter c) = [] :=
    List.filter_eq_nil_iff.mpr fun c hc => by
      simp [(createdByPart_class q c hc).2.1, (createdByPart_class q c hc).2.2]
  have o6 : ts.filter (fun c => isSearchGroup c || isTagAreaIter c) = [] :=
    List.filter_eq_nil_iff.mpr fun c hc => by
      simp [(timeConds_class now q ts hts c hc).2.1, (timeConds_class now q ts hts c hc).2.2]
  have o7 : (searchPart q).filter (fun c => isSearchGroup c || isTagAreaIter c) =
      searchPart q :=
    List.filter_eq_self.mpr fun c hc => by simp [(searchPart_class q c hc).2.1]
  have o8 : (tagsPart q).filter (fun c => isSearchGroup c || isTagAreaIter c) =
      tagsPart q :=
    List.filter_eq_self.mpr fun c hc => by simp [(tagsPart_class q c hc).2.2]
  have o9 : (areaPart q).filter (fun c => isSearchGroup c || isTagAreaIter c) =
      areaPart q :=
    List.filter_eq_self.mpr fun c hc => by simp [(areaPart_class q c hc).2.2]
  have o10 : (iterationPart q).filter (fun c => isSearchGroup c || isTagAreaIter c) =
      iterationPart q :=
    List.filter_eq_self.mpr fun c hc => by simp [(iterationPart_class q c hc).2.2]
  have g1 : (typePart q).filter (fun c => isSearchGroup c) = [] :=
    List.filter_eq_nil_iff.mpr fun c hc => by simp [(typePart_class q c hc).2.1]
  have g2 : (statePart q).filter (fun c => isSearchGroup c) = [] :=
    List.filter_eq_nil_iff.mpr fun c hc => by simp [(statePart_class q c hc).2.1]
  have g3 : (priorityPart q).filter (fun c => isSearchGroup c) = [] :=
    List.filter_eq_nil_iff.mpr fun c hc => by simp [(priorityPart_class q c hc).2.1]
  have g4 : (assignedPart q).filter (fun c => isSearchGroup c) = [] :=
    List.filter_eq_nil_iff.mpr fun c hc => by simp [(assignedPart_class q c hc).2.1]
  have g5 : (createdByPart q).filter (fun c => isSearchGroup c) = [] :=
    List.filter_eq_nil_iff.mpr fun c hc => by simp [(createdByPart_class q c hc).2.1]
  have g6 : ts.filter (fun c => isSearchGroup c) = [] :=
    List.filter_eq_nil_iff.mpr fun c hc => by simp [(timeConds_class now q ts hts c hc).2.1]
  have g7 : (searchPart q).filter (fun c => isSearchGroup c) = searchPart q :=
    List.filter_eq_self.mpr fun c hc => by simp [(searchPart_class q c hc).2.1]
  have g8 : (tagsPart q).filter (fun c => isSearchGroup c) = [] :=
    List.filter_eq_nil_iff.mpr fun c hc => by simp [(tagsPart_class q c hc).2.1]
  have g9 : (areaPart q).filter (fun c => isSearchGroup c) = [] :=
    List.filter_eq_nil_iff.mpr fun c hc => by simp [(areaPart_class q c hc).2.1]
  have g10 : (iterationPart q).filter (fun c => isSearchGroup c) = [] :=
    List.filter_eq_nil_iff.mpr fun c hc => by simp [(iterationPart_class q c hc).2.1]
  have t1 : (typePart q).filter (fun c => isTagAreaIter c) = [] :=
    List.filter_eq_nil_iff.mpr fun c hc => by simp [(typePart_class q c hc).2.2]
  have t2 : (statePart q).filter (fun c => isTagAreaIter c) = [] :=
    List.filter_eq_nil_iff.mpr fun c hc => by simp [(statePart_class q c hc).2.2]
  have t3 : (priorityPart q).filter (fun c => isTagAreaIter c) = [] :=
    List.filter_eq_nil_iff.mpr fun c hc => by simp [(priorityPart_class q c hc).2.2]
  have t4 : (assignedPart q).filter (fun c => isTagAreaIter c) = [] :=
    List.filter_eq_nil_iff.mpr fun c hc => by simp [(assignedPart_class q c hc).2.2]
  have t5 : (createdByPart q).filter (fun c => isTagAreaIter c) = [] :=
    List.filter_eq_nil_iff.mpr fun c hc => by simp [(createdByPart_class q c hc).2.2]
  have t6 : ts.filter (fun c => isTagAreaIter c) = [] :=
    List.filter_eq_nil_iff.mpr fun c hc => by simp [(timeConds_class now q ts hts c hc).2.2]
  have t7 : (searchPart q).filter (fun c => isTagAreaIter c) = [] :=
    List.filter_eq_nil_iff.mpr fun c hc => by simp [(searchPart_class q c hc).2.2]
  have t8 : (tagsPart q).filter (fun c => isTagAreaIter c) = tagsPart q :=
    List.filter_eq_self.mpr fun c hc => by simp [(tagsPart_class q c hc).2.2]
  have t9 : (areaPart q).filter (fun c => isTagAreaIter c) = areaPart q :=
    List.filter_eq_self.mpr fun c hc => by simp [(areaPart_class q c hc).2.2]
  have t10 : (iterationPart q).filter (fun c => isTagAreaIter c) = iterationPart q :=
    List.filter_eq_self.mpr fun c hc => by simp [(iterationPart_class q c hc).2.2]
  rw [o1, o2, o3, o4, o5, o6, o7, o8, o9, o10, g1, g2, g3, g4, g5, g6, g7, g8, g9,
    g10, t1, t2, t3, t4, t5, t6, t7, t8, t9, t10]
  simp

/-- C5 (witness): the amended ordering statement instantiated at the
condition list returned for the counterexample query. -/
theorem c5_amended_witness :
    ["([System.Title] CONTAINS 'urgent' OR [System.Description] CONTAINS 'urgent' OR [System.Title] CONTAINS 'frontend' OR [System.Description] CONTAINS 'frontend')",
     "[System.Tags] CONTAINS 'frontend'"].filter
        (fun c => isSearchGroup c || isTagAreaIter c) =
      ["([System.Title] CONTAINS 'urgent' OR [System.Description] CONTAINS 'urgent' OR [System.Title] CONTAINS 'frontend' OR [System.Description] CONTAINS 'frontend')",
       "[System.Tags] CONTAINS 'frontend'"].filter (fun c => isSearchGroup c) ++
      ["([System.Title] CONTAINS 'urgent' OR [System.Description] CONTAINS 'urgent' OR [System.Title] CONTAINS 'frontend' OR [System.Description] CONTAINS 'frontend')",
       "[System.Tags] CONTAINS 'frontend'"].filter (fun c => isTagAreaIter c) :=
  c5_amended_group_before_tags 0 "urgent #frontend"
    ["([System.Title] CONTAINS 'urgent' OR [System.Description] CONTAINS 'urgent' OR [System.Title] CONTAINS 'frontend' OR [System.Description] CONTAINS 'frontend')",
     "[System.Tags] CONTAINS 'frontend'"] (by decide)

open QueryConverter in
/-- A query whose assignee pass emits a condition contributes it to the
condition list returned on the non-raising path. -/
theorem mem_parse_of_assigned (now : Nat) (q cond : String) (ts : List String)
    (htime : QueryConverter.extract_time_conditions now q = some ts)
    (h : QueryConverter.assignedPart q = [cond]) :
    ∃ l, QueryConverter.parse_query_conditions now q = some l ∧ cond ∈ l := by
  have hp : parse_query_conditions now q =
      some (typePart q ++ statePart q ++ priorityPart q ++ assignedPart q ++
        createdByPart q ++ ts ++ searchPart q ++ tagsPart q ++ areaPart q ++
        iterationPart q) := by
    unfold parse_query_conditions
    rw [htime]
  refine ⟨_, hp, ?_⟩
  rw [h]
  simp [List.mem_append]

open QueryConverter in
/-- C2 (counterexample): on "get all completed tasks from last week" no
condition on either timestamp field is emitted, because neither the
trigger word `created` nor any of `changed`/`updated`/`modified` occurs
in the text — contradicting the claimed modification-date cutoff. -/
theorem c2_counterexample :
    QueryConverter.parse_query_conditions 1000 "get all completed tasks from last week" =
      some
        ["[System.WorkItemType] = 'Task'", "[System.State] = 'Done'",
         "([System.Title] CONTAINS 'last' OR [System.Description] CONTAINS 'last' OR [System.Title] CONTAINS 'week' OR [System.Description] CONTAINS 'week')"] ∧
    (["[System.WorkItemType] = 'Task'", "[System.State] = 'Done'",
      "([System.Title] CONTAINS 'last' OR [System.Description] CONTAINS 'last' OR [System.Title] CONTAINS 'week' OR [System.Description] CONTAINS 'week')"].countP
        (fun c => strStarts "[System.ChangedDate]" c) = 0) ∧
    (["[System.WorkItemType] = 'Task'", "[System.State] = 'Done'",
      "([System.Title] CONTAINS 'last' OR [System.Description] CONTAINS 'last' OR [System.Title] CONTAINS 'week' OR [System.Description] CONTAINS 'week')"].countP
        (fun c => strStarts "[System.CreatedDate]" c) = 0) := by
  decide

open QueryConverter in
/-- C2 (amended): for every clock value,
translate("get all completed tasks from last week") emits exactly a
type=Task condition, a state=Done condition, and the OR search group over
the residual tokens `last` and `week` — and no date condition at all,
since no temporal trigger word occurs in the text. -/
theorem c2_amended_no_date_condition (now : Nat) :
    QueryConverter.parse_query_conditions now "get all completed tasks from last week" =
      some
        ["[System.WorkItemType] = 'Task'", "[System.State] = 'Done'",
         "([System.Title] CONTAINS 'last' OR [System.Description] CONTAINS 'last' OR [System.Title] CONTAINS 'week' OR [System.Description] CONTAINS 'week')"] ∧
    QueryConverter.convert_to_wiql now "get all completed tasks from last week" none =
      some
        "SELECT [System.Id], [System.Title], [System.WorkItemType], [System.State], [System.AssignedTo], [System.CreatedDate], [System.ChangedDate] FROM WorkItems WHERE [System.WorkItemType] = 'Task' AND [System.State] = 'Done' AND ([System.Title] CONTAINS 'last' OR [System.Description] CONTAINS 'last' OR [System.Title] CONTAINS 'week' OR [System.Description] CONTAINS 'week') ORDER BY [System.ChangedDate] DESC" :=
  ⟨rfl, rfl⟩

open QueryConverter in
/-- C3 (counterexample): on "for alice mine" both an assignee regex
pattern (`for X`) and a self-reference keyword (`mine`) fire, yet the
emitted condition is the literal CONTAINS filter, not the self-identity
or empty-assignee condition. -/
theorem c3_counterexample :
    QueryConverter.parse_query_conditions 0 "for alice mine" =
      some
        ["[System.AssignedTo] CONTAINS 'alice mine'",
         "([System.Title] CONTAINS 'alice' OR [System.Description] CONTAINS 'alice' OR [System.Title] CONTAINS 'mine' OR [System.Description] CONTAINS 'mine')"] ∧
    "[System.AssignedTo] = @Me" ∉
      ["[System.AssignedTo] CONTAINS 'alice mine'",
       "([System.Title] CONTAINS 'alice' OR [System.Description] CONTAINS 'alice' OR [System.Title] CONTAINS 'mine' OR [System.Description] CONTAINS 'mine')"] ∧
    "[System.AssignedTo] = ''" ∉
      ["[System.AssignedTo] CONTAINS 'alice mine'",
       "([System.Title] CONTAINS 'alice' OR [System.Description] CONTAINS 'alice' OR [System.Title] CONTAINS 'mine' OR [System.Description] CONTAINS 'mine')"] ∧
    (["my", "mine", "me"].any fun w => pyIn w "for alice mine") = true := by
  decide

open QueryConverter in
/-- C3 (amended): the regex-extracted literal takes precedence — when an
assignee regex pattern fires together with a self-reference or
unassigned keyword, the captured literal is none of the special words,
and the temporal pass does not raise (so a condition list is returned
at all), the literal-name CONTAINS condition is emitted; the keyword
checks act only as a fallback when no regex pattern matches. -/
theorem c3_amended_regex_precedence (now : Nat) (q m : String) (ts : List String)
    (hreg : QueryConverter.assignedRegex q = some m)
    (hkw : ((["my", "mine", "me"].any fun w => pyIn w q) ||
            (["unassigned", "nobody", "no one"].any fun w => pyIn w q)) = true)
    (hme : pyLower m ∉ (["me", "myself"] : List String))
    (hun : pyLower m ∉ (["unassigned", "nobody", "no one"] : List String))
    (htime : QueryConverter.extract_time_conditions now q = some ts) :
    ∃ l, QueryConverter.parse_query_conditions now q = some l ∧
      ("[System.AssignedTo] CONTAINS '" ++ m ++ "'") ∈ l := by
  have hext : extract_assigned_to q = some m := by
    unfold extract_assigned_to
    rw [hreg]
  have hA : assignedPart q = ["[System.AssignedTo] CONTAINS '" ++ m ++ "'"] := by
    unfold assignedPart
    rw [hext]
    simp only []
    simp [hme, hun]
  exact mem_parse_of_assigned now q _ ts htime hA

/-- C3 (witness): the amended precedence statement instantiated at the
counterexample query "for alice mine" with captured literal
"alice mine" and a non-raising temporal pass. -/
theorem c3_amended_witness :
    ∃ l, QueryConverter.parse_query_conditions 0 "for alice mine" = some l ∧
      ("[System.AssignedTo] CONTAINS '" ++ "alice mine" ++ "'") ∈ l :=
  c3_amended_regex_precedence 0 "for alice mine" "alice mine" [] (by decide) (by decide)
    (by decide) (by decide) (by decide)

/-- C9 (counterexample): on "implement modified 3 weeks ago" no assignee
regex pattern matches and the letter sequence `me` occurs inside
"implement", yet translate emits nothing at all — the temporal pass
raises `TypeError` on the parametrized phrase with the `modified`
trigger — so no self-identity condition is produced. -/
theorem c9_counterexample :
    QueryConverter.assignedRegex (pyStrip (pyLower "implement modified 3 weeks ago")) =
      none ∧
    (["my", "mine", "me"].any fun w =>
      pyIn w (pyStrip (pyLower "implement modified 3 weeks ago"))) = true ∧
    QueryConverter.convert_to_wiql 0 "implement modified 3 weeks ago" none = none := by
  decide

open QueryConverter in
/-- C9 (amended): whenever no assignee regex pattern matches the
normalized query, one of the letter sequences `my`, `mine`, `me` occurs
as a plain substring anywhere in it — also inside an unrelated word —
and the temporal pass does not raise (so a query string is returned at
all), the translated WIQL contains the self-identity condition
`[System.AssignedTo] = @Me`. -/
theorem c9_me_substring_forces_atme (now : Nat) (raw : String) (p : Option String)
    (ts : List String)
    (hreg : QueryConverter.assignedRegex (pyStrip (pyLower raw)) = none)
    (hkw : (["my", "mine", "me"].any fun w => pyIn w (pyStrip (pyLower raw))) = true)
    (htime : QueryConverter.extract_time_conditions now (pyStrip (pyLower raw)) = some ts) :
    ∃ w, QueryConverter.convert_to_wiql now raw p = some w ∧
      "[System.AssignedTo] = @Me".data <:+: w.data := by
  have hext : extract_assigned_to (pyStrip (pyLower raw)) = some "me" := by
    unfold extract_assigned_to
    rw [hreg]
    simp [hkw]
  have hA : assignedPart (pyStrip (pyLower raw)) = ["[System.AssignedTo] = @Me"] := by
    unfold assignedPart
    rw [hext]
    rfl
  obtain ⟨l, hl, hmem⟩ := mem_parse_of_assigned now (pyStrip (pyLower raw)) _ ts htime hA
  have hne : l.isEmpty = false := by
    cases hE : l.isEmpty
    · rfl
    · rw [List.isEmpty_iff.mp hE] at hmem
      exact absurd hmem (List.not_mem_nil _)
  rw [convert_to_wiql_ok now raw p l hl]
  refine ⟨_, rfl, ?_⟩
  rw [if_neg (by simp [hne])]
  have h1 : "[System.AssignedTo] = @Me".data <:+: (pyJoin " AND " l).data :=
    mem_pyJoin_isInfix _ _ _ hmem
  have h2 : "[System.AssignedTo] = @Me".data <:+: ("WHERE " ++ pyJoin " AND " l).data := by
    rw [strData_append]
    exact h1.trans (List.suffix_append _ _).isInfix
  exact h2.trans (mem_pyJoin_isInfix _ _ _ (by simp))

/-- C9 (witness): "implement" matches no assignee regex pattern but
contains `me` inside the word, its temporal pass succeeds with no
conditions, and the produced WIQL carries the self-identity
condition. -/
theorem c9_witness :
    ∃ w, QueryConverter.convert_to_wiql 0 "implement" none = some w ∧
      "[System.AssignedTo] = @Me".data <:+: w.data :=
  c9_me_substring_forces_atme 0 "implement" none [] (by decide) (by decide) (by decide)

/-- Membership after a Python dict assignment: either the key was
already present or it is the assigned key. -/
theorem mem_dinsert (d : List (String × Value)) (k : String) (v : Value)
    {qk : String} {qv : Value} (h : (qk, qv) ∈ FieldMapper.dinsert d k v) :
    (∃ v', (qk, v') ∈ d) ∨ qk = k := by
  unfold FieldMapper.dinsert at h
  split_ifs at h with hex
  · rw [List.mem_map] at h
    obtain ⟨kv, hkv, heq⟩ := h
    by_cases hk : (kv.1 == k) = true
    · rw [if_pos hk] at heq
      cases heq
      exact Or.inr rfl
    · rw [if_neg hk] at heq
      rw [heq] at hkv
      exact Or.inl ⟨qv, hkv⟩
  · rw [List.mem_append] at h
    rcases h with h | h
    · exact Or.inl ⟨qv, h⟩
    · simp at h
      exact Or.inr h.1

/-- The mapping loop body skips entries whose value is Python `None`. -/
theorem map_step_none (acc : List (String × Value)) (e : String × Value)
    (h : e.2 = Value.vNone) : FieldMapper.map_step acc e = acc := by
  unfold FieldMapper.map_step
  simp [h]

/-- Every entry of the loop body's result either was in the accumulator
or carries the resolved reference of the processed non-null entry. -/
theorem mem_map_step (acc : List (String × Value)) (e : String × Value)
    {qk : String} {qv : Value} (h : (qk, qv) ∈ FieldMapper.map_step acc e) :
    (∃ v', (qk, v') ∈ acc) ∨
      (e.2 ≠ Value.vNone ∧ qk = FieldMapper.get_field_reference e.1) := by
  unfold FieldMapper.map_step at h
  dsimp only at h
  by_cases hn : e.2 = Value.vNone
  · rw [if_pos hn] at h
    exact Or.inl ⟨qv, h⟩
  · rw [if_neg hn] at h
    split_ifs at h with hid htag hdate
    · split at h
      · rcases mem_dinsert _ _ _ h with hl | hr
        · exact Or.inl hl
        · exact Or.inr ⟨hn, hr⟩
      · split at h
        · rcases mem_dinsert _ _ _ h with hl | hr
          · exact Or.inl hl
          · exact Or.inr ⟨hn, hr⟩
        · exact Or.inl ⟨qv, h⟩
      · exact Or.inl ⟨qv, h⟩
    · split at h
      · rcases mem_dinsert _ _ _ h with hl | hr
        · exact Or.inl hl
        · exact Or.inr ⟨hn, hr⟩
      · rcases mem_dinsert _ _ _ h with hl | hr
        · exact Or.inl hl
        · exact Or.inr ⟨hn, hr⟩
    · split at h
      · rcases mem_dinsert _ _ _ h with hl | hr
        · exact Or.inl hl
        · exact Or.inr ⟨hn, hr⟩
      · rcases mem_dinsert _ _ _ h with hl | hr
        · exact Or.inl hl
        · exact Or.inr ⟨hn, hr⟩
      · exact Or.inl ⟨qv, h⟩
    · rcases mem_dinsert _ _ _ h with hl | hr
      · exact Or.inl hl
      · exact Or.inr ⟨hn, hr⟩

/-- Keys of the fold's result are accumulator keys or resolved keys of
non-null input entries. -/
theorem mem_map_fields_aux :
    ∀ (fields : List (String × Value)) (acc : List (String × Value))
      (qk : String) (qv : Value), (qk, qv) ∈ fields.foldl FieldMapper.map_step acc →
      (∃ v', (qk, v') ∈ acc) ∨
        ∃ k₀ v₀, (k₀, v₀) ∈ fields ∧ v₀ ≠ Value.vNone ∧
          qk = FieldMapper.get_field_reference k₀
  | [], _, _, qv, h => Or.inl ⟨qv, h⟩
  | e :: rest, acc, qk, qv, h => by
    rcases mem_map_fields_aux rest (FieldMapper.map_step acc e) qk qv h with
      ⟨v', hv⟩ | ⟨k₀, v₀, hm, hnn, hq⟩
    · rcases mem_map_step acc e hv with hl | ⟨hnn, hq⟩
      · exact Or.inl hl
      · exact Or.inr ⟨e.1, e.2, by simp, hnn, hq⟩
    · exact Or.inr ⟨k₀, v₀, List.mem_cons_of_mem _ hm, hnn, hq⟩

/-- Null-valued entries may be dropped from the input without changing
the fold's result. -/
theorem foldl_filter_none :
    ∀ (fields : List (String × Value)) (acc : List (String × Value)),
      fields.foldl FieldMapper.map_step acc =
        (fields.filter fun kv => !(kv.2 == Value.vNone)).foldl FieldMapper.map_step acc
  | [], _ => rfl
  | e :: rest, acc => by
    by_cases hn : e.2 = Value.vNone
    · rw [List.foldl_cons, map_step_none acc e hn]
      have hf : List.filter (fun kv => !(kv.2 == Value.vNone)) (e :: rest) =
          List.filter (fun kv => !(kv.2 == Value.vNone)) rest := by
        simp [List.filter_cons, hn]
      rw [hf]
      exact foldl_filter_none rest acc
    · have hf : List.filter (fun kv => !(kv.2 == Value.vNone)) (e :: rest) =
          e :: List.filter (fun kv => !(kv.2 == Value.vNone)) rest := by
        simp [List.filter_cons, hn]
      rw [List.foldl_cons, hf, List.foldl_cons]
      exact foldl_filter_none rest (FieldMapper.map_step acc e)

/-- C6 (counterexample): `map_fields_for_creation` does not coerce values
through `format_field_value`: a string "2" for the integer-typed
priority field passes through as the string, while the coercion would
yield the integer 2. -/
theorem c6_counterexample :
    FieldMapper.map_fields_for_creation [("priority", Value.vStr "2")] "Bug" =
      [("Microsoft.VSTS.Common.Priority", Value.vStr "2")] ∧
    FieldMapper.format_field_value "Microsoft.VSTS.Common.Priority" (Value.vStr "2") =
      Value.vInt 2 ∧
    Value.vStr "2" ≠ Value.vInt 2 := by
  decide

/-- C6 (amended): `map_fields_for_creation` drops every null-valued
entry, resolves each remaining key via `get_field_reference`, and
applies its own inline per-field handling rather than
`format_field_value`; in particular the claim's example returns exactly
one entry mapping the qualified title id to "T". -/
theorem c6_amended_resolveAll (fields : List (String × Value)) (t : String) :
    FieldMapper.map_fields_for_creation fields t =
      FieldMapper.map_fields_for_creation
        (fields.filter fun kv => !(kv.2 == Value.vNone)) t ∧
    (∀ (qk : String) (qv : Value),
      (qk, qv) ∈ FieldMapper.map_fields_for_creation fields t →
      ∃ k₀ v₀, (k₀, v₀) ∈ fields ∧ v₀ ≠ Value.vNone ∧
        qk = FieldMapper.get_field_reference k₀) ∧
    FieldMapper.map_fields_for_creation
        [("title", Value.vStr "T"), ("assigned_to", Value.vNone)] "Bug" =
      [("System.Title", Value.vStr "T")] := by
  refine ⟨foldl_filter_none fields [], ?_, by decide⟩
  intro qk qv h
  rcases mem_map_fields_aux fields [] qk qv h with ⟨v', hv⟩ | hr
  · simp at hv
  · exact hr

/-- C6 (witness): the key tracing conjunct applied at a concrete mapped
dictionary. -/
theorem c6_amended_witness :
    ∃ k₀ v₀, (k₀, v₀) ∈ [("priority", Value.vStr "2")] ∧ v₀ ≠ Value.vNone ∧
      "Microsoft.VSTS.Common.Priority" = FieldMapper.get_field_reference k₀ :=
  (c6_amended_resolveAll [("priority", Value.vStr "2")] "Bug").2.1
    "Microsoft.VSTS.Common.Priority" (Value.vStr "2") (by decide)

/-- C7 (counterexample): a datetime-typed field given a value that is
neither a datetime nor a string falls off the end of the coercion's
`if` chain and returns Python `None`, not the original value. -/
theorem c7_counterexample :
    FieldMapper.format_field_value "System.CreatedDate" (Value.vInt 5) = Value.vNone ∧
    Value.vNone ≠ Value.vInt 5 := by
  decide

/-- C7 (amended): the coercion is total and returns the original value
when a numeric conversion fails on a string for an integer- or
double-typed field; the exception is a datetime-typed field whose value
is neither a datetime nor a string, which yields Python `None` instead
of the original value. -/
theorem c7_amended_coerce (f s : String) (v : Value) :
    (FieldMapper.get_field_type f = "integer" → pyParseInt s = none →
      FieldMapper.format_field_value f (Value.vStr s) = Value.vStr s) ∧
    (FieldMapper.get_field_type f = "double" → pyParseFloat s = none →
      FieldMapper.format_field_value f (Value.vStr s) = Value.vStr s) ∧
    (FieldMapper.get_field_type f = "datetime" → (∀ u, v ≠ Value.vStr u) →
      (∀ u, v ≠ Value.vDatetime u) → v ≠ Value.vNone →
      FieldMapper.format_field_value f v = Value.vNone) := by
  refine ⟨?_, ?_, ?_⟩
  · intro ht hp
    unfold FieldMapper.format_field_value
    dsimp only
    rw [ht]
    have h1 : pyIntOfValue (Value.vStr s) = none := hp
    simp [h1]
  · intro ht hp
    unfold FieldMapper.format_field_value
    dsimp only
    rw [ht]
    have h1 : pyFloatOfValue (Value.vStr s) = none := hp
    simp [h1]
  · intro ht hs hd hn
    unfold FieldMapper.format_field_value
    dsimp only
    rw [ht]
    rw [if_neg hn, if_neg (by decide), if_neg (by decide), if_pos rfl]
    cases v with
    | vNone => exact absurd rfl hn
    | vStr u => exact absurd rfl (hs u)
    | vDatetime u => exact absurd rfl (hd u)
    | vInt n => rfl
    | vFloat a b => rfl
    | vList l => rfl
    | vDict d => rfl

/-- C7 (witness): the integer branch at a non-numeric string and the
datetime branch at an integer value. -/
theorem c7_amended_witness :
    FieldMapper.format_field_value "Microsoft.VSTS.Common.Priority" (Value.vStr "abc") =
      Value.vStr "abc" ∧
    FieldMapper.format_field_value "System.CreatedDate" (Value.vInt 5) = Value.vNone :=
  ⟨(c7_amended_coerce "Microsoft.VSTS.Common.Priority" "abc" Value.vNone).1
      (by decide) (by decide),
   (c7_amended_coerce "System.CreatedDate" "x" (Value.vInt 5)).2.2 (by decide)
      (fun u h => Value.noConfusion h) (fun u h => Value.noConfusion h) (by decide)⟩

/-- C8: for every qualified field id with a canonical alias in the
catalog, resolving the preferred display key leads back to the same
qualified id. -/
theorem c8_roundtrip (q : String)
    (h : q ∈ FieldMapper.field_mappings.map Prod.snd) :
    FieldMapper.get_field_reference (FieldMapper.get_field_name q) = q := by
  have hall : (FieldMapper.field_mappings.map Prod.snd).all
      (fun x => FieldMapper.get_field_reference (FieldMapper.get_field_name x) == x) =
      true := by decide
  have hx := List.all_eq_true.mp hall q h
  exact eq_of_beq hx

/-- C8 (witness): the round trip evaluated at the title field. -/
theorem c8_roundtrip_witness :
    FieldMapper.get_field_reference (FieldMapper.get_field_name "System.Title") =
      "System.Title" :=
  c8_roundtrip "System.Title" (by decide)

/-- C10: the creation mapper silently omits every entry whose key
resolves to an identity-typed field and whose non-null value is neither
a string nor an object carrying a `displayName` entry. -/
theorem c10_identity_dropped (acc : List (String × Value)) (k : String) (v : Value)
    (t : String)
    (hid : FieldMapper.identity_fields.contains (FieldMapper.get_field_reference k) = true)
    (hstr : ∀ s, v ≠ Value.vStr s)
    (hdict : ∀ d, v = Value.vDict d → d.find? (fun kv => kv.1 == "displayName") = none)
    (hnone : v ≠ Value.vNone) :
    FieldMapper.map_step acc (k, v) = acc ∧
    FieldMapper.map_fields_for_creation [(k, v)] t = [] := by
  have hstep : ∀ acc' : List (String × Value), FieldMapper.map_step acc' (k, v) = acc' := by
    intro acc'
    unfold FieldMapper.map_step
    dsimp only
    rw [if_neg hnone, if_pos hid]
    cases v with
    | vNone => exact absurd rfl hnone
    | vStr s => exact absurd rfl (hstr s)
    | vDict d =>
      show (match List.find? (fun kv => kv.1 == "displayName") d with
            | some kv =>
              FieldMapper.dinsert acc' (FieldMapper.get_field_reference k) (Value.vStr kv.2)
            | none => acc') = acc'
      rw [hdict d rfl]
    | vInt n => rfl
    | vFloat a b => rfl
    | vDatetime u => rfl
    | vList l => rfl
  exact ⟨hstep acc, hstep []⟩

/-- C10 (witness): an integer assignee value is dropped. -/
theorem c10_witness :
    FieldMapper.map_step [] ("assigned_to", Value.vInt 5) = [] ∧
    FieldMapper.map_fields_for_creation [("assigned_to", Value.vInt 5)] "Bug" = [] :=
  c10_identity_dropped [] "assigned_to" (Value.vInt 5) "Bug" (by decide)
    (fun s h => Value.noConfusion h) (fun d h => Value.noConfusion h) (by decide)

/-- C1 (code bug): `convert_to_wiql` is not total.  Every value of the
source's `time_patterns` dict is a lambda, so `callable(date_func)` is
true for all entries and the grouped patterns hit the zero-argument
`date_func()` call of their one-argument lambdas: on
"bugs created 3 days ago" the temporal pass raises an uncaught
`TypeError` and translate returns no query string at all, for every
clock value. -/
theorem c1_crash_on_grouped_time (now : Nat) :
    QueryConverter.extract_time_conditions now "bugs created 3 days ago" = none ∧
    QueryConverter.convert_to_wiql now "bugs created 3 days ago" none = none :=
  ⟨rfl, rfl⟩
